import Mathlib

/-!
# Deployment orchestrator (`scripts/deploy.js`)

A shallow embedding of the three asynchronous functions of `scripts/deploy.js`
(`deployNFTContract`, `deployPeriphery`, `deployAll`) together with the constants
of the script, followed by theorems about the order and content of the calls the
script issues to its collaborators (the chain client `ethers`, the task runner
`run`, the timer and the console).

Every call the script issues is recorded, in order, in a trace.  The outcome of a
collaborator call is decided by a `World`, which may look at the whole trace up to
and including the call being answered, so that the embedding covers every
deterministic behaviour of the collaborators.  A rejected promise (or a thrown
`TypeError`) is an `Except.error` that is propagated by every `await`, exactly as
in the source, which contains no `try`/`catch`.
-/

namespace Deploy

/-! ## Data model -/

/-- A chain address as the chain client renders it: an ASCII hex string. -/
abbrev Address := String

/-- A signer identity, an element of the array returned by `ethers.getSigners()`. -/
structure Signer where
  address : Address
  deriving DecidableEq, Repr

/-- The object returned by `ContractFactory.deploy`; only `address` is read. -/
structure Contract where
  address : Address
  deriving DecidableEq, Repr

/-- The object returned by `ethers.getContractFactory`; `signer` is `none` for the
factory's default signer and `some s` after `connect(s)`. -/
structure ContractFactory where
  artifact : String
  signer : Option Signer
  deriving DecidableEq, Repr

/-- What an `await` can throw: a JavaScript `TypeError` raised by the script itself,
or the rejection of a collaborator's promise. -/
inductive Err where
  | typeError (message : String)
  | rejected (reason : String)
  deriving DecidableEq, Repr

/-- The calls the script issues, in the vocabulary of the source. -/
inductive Event where
  /-- `ethers.getContractFactory(artifact)` -/
  | getContractFactory (artifact : String)
  /-- `factory.deploy(...args)`, with the signer the factory is connected to -/
  | deploy (artifact : String) (signer : Option Signer) (args : List String)
  /-- `contract.deployed()` on the contract object with this address -/
  | deployed (address : Address)
  /-- `console.log(message)` -/
  | log (message : String)
  /-- `contract.updateBaseURI(uri)` on the contract object with this address -/
  | updateBaseURI (address : Address) (uri : String)
  /-- `setTimeout(ms)` of `timers/promises` -/
  | setTimeout (ms : Nat)
  /-- `run("verify:verify", { address, constructorArguments })`; the second field
  is `none` when the object literal has no `constructorArguments` key -/
  | verify (address : Address) (constructorArguments : Option (List String))
  /-- `ethers.getSigners()` -/
  | getSigners
  deriving DecidableEq, Repr

/-- The calls issued so far, oldest first. -/
abbrev Trace := List Event

/-- The collaborators.  Each field answers one kind of call and receives the trace
up to and including the call it answers. -/
structure World where
  getContractFactory : Trace → Except Err Unit
  deploy : Trace → Except Err Contract
  deployed : Trace → Except Err Unit
  updateBaseURI : Trace → Except Err Unit
  verify : Trace → Except Err Unit
  getSigners : Trace → Except Err (List Signer)

/-! ## The `async`/`await` fragment used by the script -/

/-- An `async` computation: it extends the trace and either returns a value or
throws.  The trace is kept when it throws. -/
def Script (α : Type) : Type := Trace → Except Err α × Trace

/-- A computation that returns at once. -/
def Script.pure {α : Type} (a : α) : Script α := fun t => (.ok a, t)

/-- Sequencing with `await`: a thrown error skips the rest. -/
def Script.bind {α β : Type} (m : Script α) (f : α → Script β) : Script β := fun t =>
  match (m t).1 with
  | .ok a => f a (m t).2
  | .error e => (.error e, (m t).2)

instance : Monad Script where
  pure := Script.pure
  bind := Script.bind

/-- A thrown error. -/
def throwErr {α : Type} (e : Err) : Script α := fun t => (.error e, t)

/-- A call that cannot fail. -/
def emit (e : Event) : Script Unit := fun t => (.ok (), t ++ [e])

/-- The JavaScript `String.prototype.toLowerCase` on ASCII strings (addresses are
ASCII hex strings): every `A`..`Z` is replaced by `a`..`z`. -/
def toLowerCase (s : String) : String := ⟨s.data.map Char.toLower⟩

/-- The call `ethers.getContractFactory(artifact)`. -/
def getContractFactory (w : World) (artifact : String) : Script ContractFactory := fun t =>
  match w.getContractFactory (t ++ [.getContractFactory artifact]) with
  | .ok _ => (.ok ⟨artifact, none⟩, t ++ [.getContractFactory artifact])
  | .error e => (.error e, t ++ [.getContractFactory artifact])

/-- The spread `...args` of a call: `undefined` is not iterable. -/
def spread (args : Option (List String)) : Script (List String) :=
  match args with
  | some xs => Script.pure xs
  | none => throwErr (.typeError "args is not iterable")

/-- The method `factory.connect(wallet)`: the same factory with another signer.  The
argument is `wallets[1]`, which is `undefined` (`none`) when the array is too short;
the script throws before it reaches this call in that case. -/
def ContractFactory.connect (f : ContractFactory) (wallet : Option Signer) : ContractFactory :=
  { f with signer := wallet }

/-- The call `factory.deploy(...args)`. -/
def ContractFactory.deploy (w : World) (f : ContractFactory) (args : List String) :
    Script Contract := fun t =>
  (w.deploy (t ++ [.deploy f.artifact f.signer args]), t ++ [.deploy f.artifact f.signer args])

/-- The call `contract.deployed()`. -/
def Contract.deployed (w : World) (c : Contract) : Script Unit := fun t =>
  (w.deployed (t ++ [.deployed c.address]), t ++ [.deployed c.address])

/-- The call `contract.updateBaseURI(uri)`; the transaction handle it returns is
never used by the script. -/
def Contract.updateBaseURI (w : World) (c : Contract) (uri : String) : Script Unit := fun t =>
  (w.updateBaseURI (t ++ [.updateBaseURI c.address uri]), t ++ [.updateBaseURI c.address uri])

/-- The call `console.log(message)`. -/
def consoleLog (message : String) : Script Unit := emit (.log message)

/-- The call `setTimeout(ms)` of `timers/promises`, which always resolves. -/
def setTimeout (ms : Nat) : Script Unit := emit (.setTimeout ms)

/-- The call `run("verify:verify", { address, constructorArguments })`. -/
def runVerify (w : World) (address : Address) (constructorArguments : Option (List String)) :
    Script Unit := fun t =>
  (w.verify (t ++ [.verify address constructorArguments]),
    t ++ [.verify address constructorArguments])

/-- The call `ethers.getSigners()`. -/
def getSigners (w : World) : Script (List Signer) := fun t =>
  (w.getSigners (t ++ [.getSigners]), t ++ [.getSigners])

/-- The property read `wallet.address` where `wallet = wallets[1]`: reading a
property of `undefined` throws. -/
def addressOf (wallet : Option Signer) : Script Address :=
  match wallet with
  | some s => Script.pure s.address
  | none => throwErr (.typeError "Cannot read properties of undefined (reading address)")

/-! ## The script -/

/-- The function `deployNFTContract(artifact, args, uriBase)`. -/
def deployNFTContract (w : World) (artifact : String) (args : Option (List String))
    (uriBase : String) : Script Unit := do
  let Contract ← getContractFactory w artifact
  let xs ← spread args
  let contract ← Contract.deploy w xs
  contract.deployed w
  consoleLog ("new " ++ artifact ++ " contract deployed to " ++ contract.address)
  let uri := uriBase ++ toLowerCase contract.address ++ "/"
  contract.updateBaseURI w uri
  setTimeout 10000
  runVerify w contract.address args

/-- The function `deployPeriphery()`. -/
def deployPeriphery (w : World) : Script Unit := do
  let wallets ← getSigners w
  let wallet := wallets[1]?
  let donationAddress ← addressOf wallet
  let Planner ← getContractFactory w "BatchPlanner"
  let planner ← Planner.deploy w []
  planner.deployed w
  consoleLog ("new planner deployed to " ++ planner.address)
  let Claimer ← getContractFactory w "ClaimCampaigns"
  let claimer ← (Claimer.connect wallet).deploy w [donationAddress]
  claimer.deployed w
  consoleLog ("new claimer deployed to " ++ claimer.address)
  setTimeout 10000
  runVerify w claimer.address (some [donationAddress])
  runVerify w planner.address none

/-- The loop `for (let i = 0; i < artifacts.length; i++) await
deployNFTContract(artifacts[i], args[i], uriBase)`: the list argument is the part of
`artifacts` from index `i` on. -/
def deployAllLoop (w : World) (args : List (List String)) (uriBase : String) :
    List String → Nat → Script Unit
  | [], _ => Script.pure ()
  | artifact :: rest, i => do
    deployNFTContract w artifact (args[i]?) uriBase
    deployAllLoop w args uriBase rest (i + 1)

/-- What a run of `deployAll` leaves behind. -/
structure Run where
  /-- how the promise returned by `deployAll` settles -/
  result : Except Err Unit
  /-- how the promise of the call `deployPeriphery()` settles, which nobody awaits;
  `none` when the call is never reached -/
  periphery : Option (Except Err Unit)
  /-- every call issued, in order -/
  trace : Trace

/-- The function `deployAll(artifacts, args, uri, network)`, started on the empty
trace.  The call `deployPeriphery()` is not awaited: its outcome does not reach
`result`.  Nothing else runs in the script, so its calls follow those of the loop. -/
def deployAll (w : World) (artifacts : List String) (args : List (List String))
    (uri network : String) : Run :=
  let uriBase := uri ++ network
  let primary := deployAllLoop w args uriBase artifacts 0 []
  match primary.1 with
  | .error e => { result := .error e, periphery := none, trace := primary.2 }
  | .ok _ =>
    { result := .ok (), periphery := some (deployPeriphery w primary.2).1,
      trace := (deployPeriphery w primary.2).2 }

/-- The constant `artifacts` of the script. -/
def artifacts : List String :=
  ["TokenVestingPlans", "VotingTokenVestingPlans", "TokenLockupPlans",
   "VotingTokenLockupPlans", "TokenLockupPlans_Bound", "VotingTokenLockupPlans_Bound"]

/-- The constant `args` of the script. -/
def args : List (List String) :=
  [["TokenVestingPlans", "TVP"], ["VotingTokenVestingPlans", "VTVP"],
   ["TokenLockupPlans", "TLP"], ["VotingTokenLockupPlans", "VTLP"],
   ["Bound-TokenLockupPlans", "B-TLP"], ["Bound-VotingTokenLockupPlans", "B-VTLP"]]

/-- The constant `uri` of the script. -/
def uri : String := "https://dynamic-nft.hedgey.finance/"

/-- The constant `network` of the script. -/
def network : String := "mode/"

/-- The last statement of the script: `deployAll(artifacts, args, uri, network)`. -/
def main (w : World) : Run := deployAll w artifacts args uri network


/-! ## Observations on traces -/

/-- The seven calls of one complete iteration of the loop of `deployAll`, for the
contract deployed at address `a`. -/
def primaryBlock (uriBase artifact : String) (xs : List String) (a : Address) : Trace :=
  [.getContractFactory artifact, .deploy artifact none xs, .deployed a,
   .log ("new " ++ artifact ++ " contract deployed to " ++ a),
   .updateBaseURI a (uriBase ++ toLowerCase a ++ "/"), .setTimeout 10000, .verify a (some xs)]

/-- The calls of consecutive complete iterations. -/
def primaryBlocks (uriBase : String) : List String → List (List String) → List Address → Trace
  | artifact :: as, xs :: xss, a :: ds =>
    primaryBlock uriBase artifact xs a ++ primaryBlocks uriBase as xss ds
  | _, _, _ => []

/-- The twelve calls of a complete run of `deployPeriphery`, for the second signer
`s`, the Planner deployed at `p` and the Claimer deployed at `c`. -/
def peripheryBlock (s : Signer) (p c : Address) : Trace :=
  [.getSigners, .getContractFactory "BatchPlanner", .deploy "BatchPlanner" none [], .deployed p,
   .log ("new planner deployed to " ++ p), .getContractFactory "ClaimCampaigns",
   .deploy "ClaimCampaigns" (some s) [s.address], .deployed c,
   .log ("new claimer deployed to " ++ c), .setTimeout 10000,
   .verify c (some [s.address]), .verify p none]

/-- The calls a computation issues when it is started after the trace `t`. -/
def issued {α : Type} (m : Script α) (t : Trace) : Trace := (m t).2.drop t.length

/-- Whether a call is a `deploy` call. -/
def isDeploy : Event → Bool
  | .deploy _ _ _ => true
  | _ => false

/-- Whether a call is a `deploy` call or a confirmation wait `deployed`. -/
def isDeployStep : Event → Bool
  | .deploy _ _ _ => true
  | .deployed _ => true
  | _ => false

/-- Whether a call is a verification request. -/
def isVerify : Event → Bool
  | .verify _ _ => true
  | _ => false

/-- The `deploy` calls and confirmation waits of consecutive iterations, alone. -/
def deploySteps : List String → List (List String) → List Address → Trace
  | artifact :: as, xs :: xss, a :: ds =>
    .deploy artifact none xs :: .deployed a :: deploySteps as xss ds
  | _, _, _ => []

/-- The part of a trace that precedes the first `getSigners` call.  `deployPeriphery`
begins with that call and `deployNFTContract` never issues it, so in a trace of
`deployAll` these are the calls of the loop (`primaryEvents_deployAll`). -/
def primaryEvents (t : Trace) : Trace := t.takeWhile (fun e => e != .getSigners)

/-- The part of a trace from the first `getSigners` call on: in a trace of
`deployAll`, the calls of `deployPeriphery`. -/
def peripheryEvents (t : Trace) : Trace := t.dropWhile (fun e => e != .getSigners)

/-- The trace and outcome after the first `k` iterations of the loop of `deployAll`. -/
def firstIterations (w : World) (artifacts : List String) (args : List (List String))
    (uri network : String) (k : Nat) : Except Err Unit × Trace :=
  deployAllLoop w args (uri ++ network) (artifacts.take k) 0 []

/-! ## Sample collaborators -/

/-- A sample address oracle: the `n`-th `deploy` call yields `0xC` followed by `n`
letters `F`. -/
def sampleAddress (t : Trace) : Address :=
  ⟨'0' :: 'x' :: 'C' :: List.replicate (t.filter isDeploy).length 'F'⟩

/-- Collaborators whose every call succeeds, with the given signer list. -/
def World.succeeding (signers : List Signer) : World where
  getContractFactory := fun _ => .ok ()
  deploy := fun t => .ok ⟨sampleAddress t⟩
  deployed := fun _ => .ok ()
  updateBaseURI := fun _ => .ok ()
  verify := fun _ => .ok ()
  getSigners := fun _ => .ok signers

/-- The collaborators `w`, except that the `n`-th call of the run is rejected. -/
def World.failingAt (n : Nat) (w : World) : World where
  getContractFactory := fun t =>
    if t.length = n then .error (.rejected "getContractFactory") else w.getContractFactory t
  deploy := fun t => if t.length = n then .error (.rejected "deploy") else w.deploy t
  deployed := fun t => if t.length = n then .error (.rejected "deployed") else w.deployed t
  updateBaseURI := fun t =>
    if t.length = n then .error (.rejected "updateBaseURI") else w.updateBaseURI t
  verify := fun t => if t.length = n then .error (.rejected "verify") else w.verify t
  getSigners := fun t => if t.length = n then .error (.rejected "getSigners") else w.getSigners t

/-! ## Hypotheses on the collaborators -/

/-- Every collaborator call of the loop of `deployAll` succeeds: a call issued before
any `getSigners` call is answered with success. -/
structure World.PrimarySucceeds (w : World) : Prop where
  lookup : ∀ t, Event.getSigners ∉ t → w.getContractFactory t = .ok ()
  deploys : ∀ t, Event.getSigners ∉ t → ∃ c, w.deploy t = .ok c
  confirms : ∀ t, Event.getSigners ∉ t → w.deployed t = .ok ()
  configures : ∀ t, Event.getSigners ∉ t → w.updateBaseURI t = .ok ()
  verifies : ∀ t, Event.getSigners ∉ t → w.verify t = .ok ()

/-- Every collaborator call succeeds, whenever it is issued. -/
structure World.Succeeds (w : World) : Prop where
  getContractFactory : ∀ t, w.getContractFactory t = .ok ()
  deploy : ∀ t, ∃ c, w.deploy t = .ok c
  deployed : ∀ t, w.deployed t = .ok ()
  updateBaseURI : ∀ t, w.updateBaseURI t = .ok ()
  verify : ∀ t, w.verify t = .ok ()
  getSigners : ∀ t, ∃ signers, w.getSigners t = .ok signers

/-! ## The courses of one iteration -/

/-- The possible courses of one call of `deployNFTContract` started after `t`, with
the answers of the collaborators that lead to each: the outcome and the trace. -/
inductive NftRun (w : World) (uriBase artifact : String) (t : Trace) :
    Option (List String) → Except Err Unit × Trace → Prop
  | factoryFails (o : Option (List String)) (e : Err)
      (h1 : w.getContractFactory (t ++ [.getContractFactory artifact]) = .error e) :
      NftRun w uriBase artifact t o (.error e, t ++ [.getContractFactory artifact])
  | spreadFails
      (h1 : w.getContractFactory (t ++ [.getContractFactory artifact]) = .ok ()) :
      NftRun w uriBase artifact t none
        (.error (.typeError "args is not iterable"), t ++ [.getContractFactory artifact])
  | deployFails (xs : List String) (e : Err)
      (h1 : w.getContractFactory (t ++ [.getContractFactory artifact]) = .ok ())
      (h2 : w.deploy (t ++ [.getContractFactory artifact, .deploy artifact none xs]) = .error e) :
      NftRun w uriBase artifact t (some xs)
        (.error e, t ++ [.getContractFactory artifact, .deploy artifact none xs])
  | deployedFails (xs : List String) (c : Contract) (e : Err)
      (h1 : w.getContractFactory (t ++ [.getContractFactory artifact]) = .ok ())
      (h2 : w.deploy (t ++ [.getContractFactory artifact, .deploy artifact none xs]) = .ok c)
      (h3 : w.deployed (t ++ [.getContractFactory artifact, .deploy artifact none xs,
        .deployed c.address]) = .error e) :
      NftRun w uriBase artifact t (some xs)
        (.error e, t ++ [.getContractFactory artifact, .deploy artifact none xs,
          .deployed c.address])
  | updateFails (xs : List String) (c : Contract) (e : Err)
      (h1 : w.getContractFactory (t ++ [.getContractFactory artifact]) = .ok ())
      (h2 : w.deploy (t ++ [.getContractFactory artifact, .deploy artifact none xs]) = .ok c)
      (h3 : w.deployed (t ++ [.getContractFactory artifact, .deploy artifact none xs,
        .deployed c.address]) = .ok ())
      (h4 : w.updateBaseURI (t ++ (primaryBlock uriBase artifact xs c.address).take 5) = .error e) :
      NftRun w uriBase artifact t (some xs)
        (.error e, t ++ (primaryBlock uriBase artifact xs c.address).take 5)
  | verifyAnswers (xs : List String) (c : Contract)
      (h1 : w.getContractFactory (t ++ [.getContractFactory artifact]) = .ok ())
      (h2 : w.deploy (t ++ [.getContractFactory artifact, .deploy artifact none xs]) = .ok c)
      (h3 : w.deployed (t ++ [.getContractFactory artifact, .deploy artifact none xs,
        .deployed c.address]) = .ok ())
      (h4 : w.updateBaseURI (t ++ (primaryBlock uriBase artifact xs c.address).take 5) = .ok ()) :
      NftRun w uriBase artifact t (some xs)
        (w.verify (t ++ primaryBlock uriBase artifact xs c.address),
          t ++ primaryBlock uriBase artifact xs c.address)

/-! ## Statements about every call of a trace -/

/-- Every call of the trace satisfies `q`, which is given the calls before it, the
call itself, and the calls after it. -/
def EachCall (q : Trace → Event → Trace → Prop) (t : Trace) : Prop :=
  ∀ pre e post, t = pre ++ e :: post → q pre e post

/-- What C2 says of one call of a run with URI base `uriBase`: an `updateBaseURI`
call carries the base URI of its own contract and comes right after that contract's
confirmation wait and log line; and a confirmation wait of the loop that succeeds
is followed by the log line and the `updateBaseURI` call of that contract. -/
def BaseURIRule (w : World) (uriBase : String) (pre : Trace) (e : Event) (post : Trace) : Prop :=
  (∀ a u, e = .updateBaseURI a u →
    u = uriBase ++ toLowerCase a ++ "/" ∧ ∃ pre0 m, pre = pre0 ++ [.deployed a, .log m]) ∧
  (∀ a, e = .deployed a → Event.getSigners ∉ pre → w.deployed (pre ++ [e]) = .ok () →
    ∃ m post0, post = .log m :: .updateBaseURI a (uriBase ++ toLowerCase a ++ "/") :: post0)

/-- The address of a verification request. -/
def verifyAddress : Event → Option Address
  | .verify a _ => some a
  | _ => none

/-- The address of a confirmation wait. -/
def deployedAddress : Event → Option Address
  | .deployed a => some a
  | _ => none

/-- What C3 says of one call: a verification request for the contract at `a` comes
after the confirmation wait of that contract and after a settle delay of 10000 ms
that itself follows the confirmation; and a request of the loop (no `getSigners`
call before it) comes right after the deploy call, the confirmation wait, the log
line, the `updateBaseURI` call and the settle delay of its own contract, and carries
the constructor arguments of that deploy call. -/
def VerifyRule (pre : Trace) (e : Event) (_post : Trace) : Prop :=
  ∀ a o, e = .verify a o →
    (∃ p1 p2 p3, pre = p1 ++ .deployed a :: p2 ++ .setTimeout 10000 :: p3) ∧
    (Event.getSigners ∉ pre → ∃ p0 artifact xs m u, o = some xs ∧
      pre = p0 ++ [.deploy artifact none xs, .deployed a, .log m, .updateBaseURI a u,
        .setTimeout 10000])

/-- Whether a call is a settle delay. -/
def isSetTimeout : Event → Bool
  | .setTimeout _ => true
  | _ => false

/-- The verification requests of a trace, each as the address and the constructor
arguments it conveys; a request whose object literal has no `constructorArguments`
key conveys no constructor argument, the empty argument list. -/
def verifications (t : Trace) : List (Address × List String) :=
  t.filterMap fun e =>
    match e with
    | .verify a o => some (a, o.getD [])
    | _ => none

/-! ## The functions, call by call -/

/-- `deployNFTContract` with `args` undefined: the factory lookup, then the spread
throws. -/
theorem deployNFTContract_none (w : World) (artifact uriBase : String) (t : Trace) :
    deployNFTContract w artifact none uriBase t =
      match w.getContractFactory (t ++ [.getContractFactory artifact]) with
      | .error e => (.error e, t ++ [.getContractFactory artifact])
      | .ok _ => (.error (.typeError "args is not iterable"), t ++ [.getContractFactory artifact]) := by
  simp only [deployNFTContract, bind, Script.bind, getContractFactory, spread, throwErr]
  cases w.getContractFactory (t ++ [.getContractFactory artifact]) <;> rfl

/-- `deployNFTContract` with defined `args`, written out call by call: each
collaborator answer either ends the run with its error or lets the next call be
issued. -/
theorem deployNFTContract_some (w : World) (artifact : String) (xs : List String)
    (uriBase : String) (t : Trace) :
    deployNFTContract w artifact (some xs) uriBase t =
      match w.getContractFactory (t ++ [.getContractFactory artifact]) with
      | .error e => (.error e, t ++ [.getContractFactory artifact])
      | .ok _ =>
        match w.deploy (t ++ [.getContractFactory artifact, .deploy artifact none xs]) with
        | .error e => (.error e, t ++ [.getContractFactory artifact, .deploy artifact none xs])
        | .ok c =>
          match w.deployed (t ++ (primaryBlock uriBase artifact xs c.address).take 3) with
          | .error e => (.error e, t ++ (primaryBlock uriBase artifact xs c.address).take 3)
          | .ok _ =>
            match w.updateBaseURI (t ++ (primaryBlock uriBase artifact xs c.address).take 5) with
            | .error e => (.error e, t ++ (primaryBlock uriBase artifact xs c.address).take 5)
            | .ok _ =>
              (w.verify (t ++ primaryBlock uriBase artifact xs c.address),
                t ++ primaryBlock uriBase artifact xs c.address) := by
  simp only [deployNFTContract, bind, Script.bind, getContractFactory, spread, Script.pure,
    ContractFactory.deploy, Contract.deployed, consoleLog, emit, Contract.updateBaseURI,
    setTimeout, runVerify, primaryBlock, List.take, List.append_assoc, List.singleton_append,
    List.cons_append, List.nil_append]
  cases w.getContractFactory (t ++ [.getContractFactory artifact]) with
  | error e => rfl
  | ok u =>
    simp only [List.append_assoc, List.singleton_append, List.cons_append, List.nil_append]
    cases w.deploy (t ++ [.getContractFactory artifact, .deploy artifact none xs]) with
    | error e => rfl
    | ok c =>
      simp only [List.append_assoc, List.singleton_append, List.cons_append, List.nil_append]
      cases w.deployed (t ++ [.getContractFactory artifact, .deploy artifact none xs,
        .deployed c.address]) with
      | error e => rfl
      | ok u =>
        simp only [List.append_assoc, List.singleton_append, List.cons_append, List.nil_append]
        cases w.updateBaseURI (t ++ [.getContractFactory artifact, .deploy artifact none xs,
          .deployed c.address, .log ("new " ++ artifact ++ " contract deployed to " ++ c.address),
          .updateBaseURI c.address (uriBase ++ toLowerCase c.address ++ "/")]) with
        | error e => rfl
        | ok u => rfl

/-- `deployPeriphery` written out call by call.  The calls up to a given one are a
beginning of `peripheryBlock`; an address that is not known yet at that point does
not occur in that beginning and is written `""`. -/
theorem deployPeriphery_eq (w : World) (t : Trace) :
    deployPeriphery w t =
      match w.getSigners (t ++ [.getSigners]) with
      | .error e => (.error e, t ++ [.getSigners])
      | .ok wallets =>
        match wallets[1]? with
        | none => (.error (.typeError "Cannot read properties of undefined (reading address)"),
            t ++ [.getSigners])
        | some s =>
          match w.getContractFactory (t ++ (peripheryBlock s "" "").take 2) with
          | .error e => (.error e, t ++ (peripheryBlock s "" "").take 2)
          | .ok _ =>
            match w.deploy (t ++ (peripheryBlock s "" "").take 3) with
            | .error e => (.error e, t ++ (peripheryBlock s "" "").take 3)
            | .ok p =>
              match w.deployed (t ++ (peripheryBlock s p.address "").take 4) with
              | .error e => (.error e, t ++ (peripheryBlock s p.address "").take 4)
              | .ok _ =>
                match w.getContractFactory (t ++ (peripheryBlock s p.address "").take 6) with
                | .error e => (.error e, t ++ (peripheryBlock s p.address "").take 6)
                | .ok _ =>
                  match w.deploy (t ++ (peripheryBlock s p.address "").take 7) with
                  | .error e => (.error e, t ++ (peripheryBlock s p.address "").take 7)
                  | .ok c =>
                    match w.deployed (t ++ (peripheryBlock s p.address c.address).take 8) with
                    | .error e => (.error e, t ++ (peripheryBlock s p.address c.address).take 8)
                    | .ok _ =>
                      match w.verify (t ++ (peripheryBlock s p.address c.address).take 11) with
                      | .error e =>
                        (.error e, t ++ (peripheryBlock s p.address c.address).take 11)
                      | .ok _ =>
                        (w.verify (t ++ peripheryBlock s p.address c.address),
                          t ++ peripheryBlock s p.address c.address) := by
  simp only [deployPeriphery, bind, Script.bind, getContractFactory, getSigners, addressOf,
    Script.pure, throwErr, ContractFactory.connect,
    ContractFactory.deploy, Contract.deployed, consoleLog, emit,
    setTimeout, runVerify, peripheryBlock, List.take, List.append_assoc, List.singleton_append,
    List.cons_append, List.nil_append]
  cases w.getSigners (t ++ [.getSigners]) with
  | error e => rfl
  | ok wallets =>
    simp only
    cases wallets[1]? with
    | none => rfl
    | some s =>
      simp only [Script.pure, List.append_assoc, List.singleton_append, List.cons_append,
        List.nil_append]
      cases w.getContractFactory (t ++ [.getSigners, .getContractFactory "BatchPlanner"]) with
      | error e => rfl
      | ok u =>
        simp only [List.append_assoc, List.singleton_append, List.cons_append, List.nil_append]
        cases w.deploy (t ++ [.getSigners, .getContractFactory "BatchPlanner",
          .deploy "BatchPlanner" none []]) with
        | error e => rfl
        | ok p =>
          simp only [List.append_assoc, List.singleton_append, List.cons_append, List.nil_append]
          cases w.deployed (t ++ [.getSigners, .getContractFactory "BatchPlanner",
            .deploy "BatchPlanner" none [], .deployed p.address]) with
          | error e => rfl
          | ok u =>
            simp only [List.append_assoc, List.singleton_append, List.cons_append,
              List.nil_append]
            cases w.getContractFactory (t ++ [.getSigners, .getContractFactory "BatchPlanner",
              .deploy "BatchPlanner" none [], .deployed p.address,
              .log ("new planner deployed to " ++ p.address),
              .getContractFactory "ClaimCampaigns"]) with
            | error e => rfl
            | ok u =>
              simp only [List.append_assoc, List.singleton_append, List.cons_append,
                List.nil_append]
              cases w.deploy (t ++ [.getSigners, .getContractFactory "BatchPlanner",
                .deploy "BatchPlanner" none [], .deployed p.address,
                .log ("new planner deployed to " ++ p.address),
                .getContractFactory "ClaimCampaigns",
                .deploy "ClaimCampaigns" (some s) [s.address]]) with
              | error e => rfl
              | ok c =>
                simp only [List.append_assoc, List.singleton_append, List.cons_append,
                  List.nil_append]
                cases w.deployed (t ++ [.getSigners, .getContractFactory "BatchPlanner",
                  .deploy "BatchPlanner" none [], .deployed p.address,
                  .log ("new planner deployed to " ++ p.address),
                  .getContractFactory "ClaimCampaigns",
                  .deploy "ClaimCampaigns" (some s) [s.address], .deployed c.address]) with
                | error e => rfl
                | ok u =>
                  simp only [List.append_assoc, List.singleton_append, List.cons_append,
                    List.nil_append]
                  cases w.verify (t ++ [.getSigners, .getContractFactory "BatchPlanner",
                    .deploy "BatchPlanner" none [], .deployed p.address,
                    .log ("new planner deployed to " ++ p.address),
                    .getContractFactory "ClaimCampaigns",
                    .deploy "ClaimCampaigns" (some s) [s.address], .deployed c.address,
                    .log ("new claimer deployed to " ++ c.address), .setTimeout 10000,
                    .verify c.address (some [s.address])]) with
                  | error e => rfl
                  | ok u => rfl

/-- Every call of `deployNFTContract` follows one of the courses of `NftRun`. -/
theorem nftRun (w : World) (uriBase artifact : String) (o : Option (List String)) (t : Trace) :
    NftRun w uriBase artifact t o (deployNFTContract w artifact o uriBase t) := by
  cases o with
  | none =>
    rw [deployNFTContract_none]
    cases h1 : w.getContractFactory (t ++ [.getContractFactory artifact]) with
    | error e => exact .factoryFails none e h1
    | ok u => exact .spreadFails h1
  | some xs =>
    rw [deployNFTContract_some]
    cases h1 : w.getContractFactory (t ++ [.getContractFactory artifact]) with
    | error e => exact .factoryFails _ e h1
    | ok u =>
      cases h2 : w.deploy (t ++ [.getContractFactory artifact, .deploy artifact none xs]) with
      | error e => exact .deployFails xs e h1 h2
      | ok c =>
        cases h3 : w.deployed (t ++ (primaryBlock uriBase artifact xs c.address).take 3) with
        | error e =>
          simp only [h3]
          exact .deployedFails xs c e h1 h2 h3
        | ok u =>
          cases h4 : w.updateBaseURI (t ++ (primaryBlock uriBase artifact xs c.address).take 5) with
          | error e =>
            simp only [h3, h4]
            exact .updateFails xs c e h1 h2 h3 h4
          | ok u =>
            simp only [h3, h4]
            exact .verifyAnswers xs c h1 h2 h3 h4

theorem deployAllLoop_nil (w : World) (args : List (List String)) (uriBase : String)
    (i : Nat) (t : Trace) : deployAllLoop w args uriBase [] i t = (.ok (), t) := rfl

theorem deployAllLoop_cons (w : World) (args : List (List String)) (uriBase artifact : String)
    (rest : List String) (i : Nat) (t : Trace) :
    deployAllLoop w args uriBase (artifact :: rest) i t =
      match (deployNFTContract w artifact (args[i]?) uriBase t).1 with
      | .ok _ => deployAllLoop w args uriBase rest (i + 1)
          (deployNFTContract w artifact (args[i]?) uriBase t).2
      | .error e => (.error e, (deployNFTContract w artifact (args[i]?) uriBase t).2) := by
  rw [deployAllLoop]
  simp only [bind, Script.bind]
  cases (deployNFTContract w artifact (args[i]?) uriBase t).1 <;> rfl

theorem deployAllLoop_append (w : World) (args : List (List String)) (uriBase : String)
    (l1 l2 : List String) (i : Nat) (t : Trace) :
    deployAllLoop w args uriBase (l1 ++ l2) i t =
      match (deployAllLoop w args uriBase l1 i t).1 with
      | .ok _ => deployAllLoop w args uriBase l2 (i + l1.length)
          (deployAllLoop w args uriBase l1 i t).2
      | .error e => (.error e, (deployAllLoop w args uriBase l1 i t).2) := by
  induction l1 generalizing i t with
  | nil => simp [deployAllLoop_nil]
  | cons a rest ih =>
    rw [List.cons_append, deployAllLoop_cons, deployAllLoop_cons]
    cases h : (deployNFTContract w a (args[i]?) uriBase t).1 with
    | error e => simp
    | ok u =>
      simp only [ih, List.length_cons]
      rw [show i + 1 + rest.length = i + (rest.length + 1) by omega]

/-! ## Successful iterations -/

theorem getSigners_not_mem_primaryBlock (uriBase artifact : String) (xs : List String)
    (a : Address) : Event.getSigners ∉ primaryBlock uriBase artifact xs a := by
  simp [primaryBlock]

theorem getSigners_not_mem_primaryBlocks (uriBase : String) (as : List String)
    (xss : List (List String)) (ds : List Address) :
    Event.getSigners ∉ primaryBlocks uriBase as xss ds := by
  induction as generalizing xss ds with
  | nil => simp [primaryBlocks]
  | cons a as ih =>
    cases xss with
    | nil => simp [primaryBlocks]
    | cons xs xss =>
      cases ds with
      | nil => simp [primaryBlocks]
      | cons d ds =>
        simp only [primaryBlocks, List.mem_append, not_or]
        exact ⟨getSigners_not_mem_primaryBlock _ _ _ _, ih xss ds⟩

/-- A call of `deployNFTContract` that returns has issued the seven calls of a
complete iteration, and each of its collaborator calls has succeeded. -/
theorem deployNFTContract_ok (w : World) (uriBase artifact : String) (o : Option (List String))
    (t : Trace) (h : (deployNFTContract w artifact o uriBase t).1 = .ok ()) :
    ∃ xs c, o = some xs ∧
      w.deploy (t ++ [.getContractFactory artifact, .deploy artifact none xs]) = .ok c ∧
      w.verify (t ++ primaryBlock uriBase artifact xs c.address) = .ok () ∧
      (deployNFTContract w artifact o uriBase t).2 =
        t ++ primaryBlock uriBase artifact xs c.address := by
  have hr := nftRun w uriBase artifact o t
  generalize deployNFTContract w artifact o uriBase t = r at hr h
  cases hr with
  | factoryFails o e h1 => simp at h
  | spreadFails h1 => simp at h
  | deployFails xs e h1 h2 => simp at h
  | deployedFails xs c e h1 h2 h3 => simp at h
  | updateFails xs c e h1 h2 h3 h4 => simp at h
  | verifyAnswers xs c h1 h2 h3 h4 => exact ⟨xs, c, rfl, h2, h, rfl⟩

/-- When the collaborator calls of the loop succeed, a call of `deployNFTContract`
with defined arguments returns after the seven calls of a complete iteration. -/
theorem deployNFTContract_succeeds (w : World) (hw : w.PrimarySucceeds)
    (uriBase artifact : String) (xs : List String) (t : Trace) (ht : Event.getSigners ∉ t) :
    ∃ c : Contract, deployNFTContract w artifact (some xs) uriBase t =
      (.ok (), t ++ primaryBlock uriBase artifact xs c.address) := by
  have hr := nftRun w uriBase artifact (some xs) t
  generalize deployNFTContract w artifact (some xs) uriBase t = r at hr
  cases hr with
  | factoryFails o e h1 =>
    rw [hw.lookup _ (by simp [ht])] at h1
    cases h1
  | deployFails xs e h1 h2 =>
    obtain ⟨c, hc⟩ := hw.deploys (t ++ [.getContractFactory artifact, .deploy artifact none xs])
      (by simp [ht])
    rw [hc] at h2
    cases h2
  | deployedFails xs c e h1 h2 h3 =>
    rw [hw.confirms _ (by simp [ht])] at h3
    cases h3
  | updateFails xs c e h1 h2 h3 h4 =>
    rw [hw.configures _ (by simp [ht, primaryBlock])] at h4
    cases h4
  | verifyAnswers xs c h1 h2 h3 h4 =>
    refine ⟨c, ?_⟩
    rw [hw.verifies _ (by simp [ht, primaryBlock])]

/-- Iterations that all return have issued one complete block of calls each. -/
theorem deployAllLoop_ok (w : World) (args : List (List String)) (uriBase : String)
    (l : List String) (i : Nat) (t : Trace)
    (h : (deployAllLoop w args uriBase l i t).1 = .ok ()) :
    ∃ addrs : List Address, addrs.length = l.length ∧
      (deployAllLoop w args uriBase l i t).2 =
        t ++ primaryBlocks uriBase l (args.drop i) addrs := by
  induction l generalizing i t with
  | nil => exact ⟨[], rfl, by simp [deployAllLoop_nil, primaryBlocks]⟩
  | cons a rest ih =>
    rw [deployAllLoop_cons] at h ⊢
    cases h1 : (deployNFTContract w a (args[i]?) uriBase t).1 with
    | error e => simp [h1] at h
    | ok u =>
      cases u
      obtain ⟨xs, c, hx, -, -, h2⟩ := deployNFTContract_ok w uriBase a _ t h1
      simp only [h1] at h ⊢
      obtain ⟨addrs, hlen, htr⟩ := ih (i + 1) _ h
      refine ⟨c.address :: addrs, by simp [hlen], ?_⟩
      have hi : i < args.length := by
        rcases Nat.lt_or_ge i args.length with hlt | hge
        · exact hlt
        · rw [List.getElem?_eq_none hge] at hx
          cases hx
      have hdrop : args.drop i = xs :: args.drop (i + 1) := by
        rw [List.drop_eq_getElem_cons hi]
        congr 1
        rw [List.getElem?_eq_getElem hi] at hx
        exact Option.some.inj hx
      rw [htr, h2, hdrop]
      simp [primaryBlocks]

/-- When the collaborator calls of the loop succeed and every artifact has its
argument tuple, every iteration returns. -/
theorem deployAllLoop_succeeds (w : World) (hw : w.PrimarySucceeds) (args : List (List String))
    (uriBase : String) (l : List String) (i : Nat) (t : Trace)
    (hlen : i + l.length ≤ args.length) (ht : Event.getSigners ∉ t) :
    (deployAllLoop w args uriBase l i t).1 = .ok () := by
  induction l generalizing i t with
  | nil => rfl
  | cons a rest ih =>
    have hi : i < args.length := by simp at hlen; omega
    obtain ⟨c, hc⟩ := deployNFTContract_succeeds w hw uriBase a args[i] t ht
    rw [deployAllLoop_cons, List.getElem?_eq_getElem hi, hc]
    apply ih
    · simp at hlen
      omega
    · simp only [List.mem_append, not_or]
      exact ⟨ht, getSigners_not_mem_primaryBlock _ _ _ _⟩

/-! ## The calls of the loop and the calls of `deployPeriphery` -/

theorem getSigners_not_mem_deployNFTContract (w : World) (uriBase artifact : String)
    (o : Option (List String)) (t : Trace) (ht : Event.getSigners ∉ t) :
    Event.getSigners ∉ (deployNFTContract w artifact o uriBase t).2 := by
  have hr := nftRun w uriBase artifact o t
  generalize deployNFTContract w artifact o uriBase t = r at hr
  cases hr <;> simp [ht, primaryBlock]

theorem getSigners_not_mem_deployAllLoop (w : World) (args : List (List String))
    (uriBase : String) (l : List String) (i : Nat) (t : Trace) (ht : Event.getSigners ∉ t) :
    Event.getSigners ∉ (deployAllLoop w args uriBase l i t).2 := by
  induction l generalizing i t with
  | nil => simpa [deployAllLoop_nil] using ht
  | cons a rest ih =>
    rw [deployAllLoop_cons]
    have h2 := getSigners_not_mem_deployNFTContract w uriBase a args[i]? t ht
    cases h1 : (deployNFTContract w a args[i]? uriBase t).1 with
    | error e => simpa using h2
    | ok u => exact ih _ _ h2

/-- Whatever the collaborators answer, `deployPeriphery` first issues `getSigners`,
never issues it again, and never issues `updateBaseURI`. -/
theorem deployPeriphery_trace (w : World) (t : Trace) :
    ∃ ext, (deployPeriphery w t).2 = t ++ .getSigners :: ext ∧ Event.getSigners ∉ ext ∧
      ∀ a u, Event.updateBaseURI a u ∉ ext := by
  rw [deployPeriphery_eq]
  repeat' split
  all_goals
    refine ⟨_, by simp only [peripheryBlock, List.take, List.singleton_append]; rfl, ?_, ?_⟩
    all_goals simp

theorem primaryEvents_append (t ext : Trace) (ht : Event.getSigners ∉ t) :
    primaryEvents (t ++ .getSigners :: ext) = t := by
  induction t with
  | nil => simp [primaryEvents]
  | cons e t ih =>
    have he : e ≠ .getSigners := fun h => ht (by simp [h])
    have ht2 : Event.getSigners ∉ t := fun h => ht (by simp [h])
    have hb : (e != Event.getSigners) = true := by simpa using he
    have := ih ht2
    simp only [primaryEvents] at this ⊢
    rw [List.cons_append, List.takeWhile_cons, hb]
    simp [this]

theorem primaryEvents_self (t : Trace) (ht : Event.getSigners ∉ t) : primaryEvents t = t := by
  induction t with
  | nil => simp [primaryEvents]
  | cons e t ih =>
    have he : e ≠ .getSigners := fun h => ht (by simp [h])
    have ht2 : Event.getSigners ∉ t := fun h => ht (by simp [h])
    have hb : (e != Event.getSigners) = true := by simpa using he
    have := ih ht2
    simp only [primaryEvents] at this ⊢
    rw [List.takeWhile_cons, hb]
    simp [this]

theorem peripheryEvents_append (t ext : Trace) (ht : Event.getSigners ∉ t) :
    peripheryEvents (t ++ .getSigners :: ext) = .getSigners :: ext := by
  induction t with
  | nil => simp [peripheryEvents]
  | cons e t ih =>
    have he : e ≠ .getSigners := fun h => ht (by simp [h])
    have ht2 : Event.getSigners ∉ t := fun h => ht (by simp [h])
    have hb : (e != Event.getSigners) = true := by simpa using he
    have := ih ht2
    simp only [peripheryEvents] at this ⊢
    rw [List.cons_append, List.dropWhile_cons, hb]
    simp [this]

theorem deployAll_error (w : World) (artifacts : List String) (args : List (List String))
    (uri network : String) (e : Err)
    (h : (deployAllLoop w args (uri ++ network) artifacts 0 []).1 = .error e) :
    deployAll w artifacts args uri network =
      { result := .error e, periphery := none,
        trace := (deployAllLoop w args (uri ++ network) artifacts 0 []).2 } := by
  simp only [deployAll, h]

theorem deployAll_ok (w : World) (artifacts : List String) (args : List (List String))
    (uri network : String)
    (h : (deployAllLoop w args (uri ++ network) artifacts 0 []).1 = .ok ()) :
    deployAll w artifacts args uri network =
      { result := .ok (),
        periphery := some
          (deployPeriphery w (deployAllLoop w args (uri ++ network) artifacts 0 []).2).1,
        trace := (deployPeriphery w (deployAllLoop w args (uri ++ network) artifacts 0 []).2).2 } := by
  simp only [deployAll, h]

/-- In every run of `deployAll`, the calls before the first `getSigners` call are
the calls of the loop. -/
theorem primaryEvents_deployAll (w : World) (artifacts : List String)
    (args : List (List String)) (uri network : String) :
    primaryEvents (deployAll w artifacts args uri network).trace =
      (deployAllLoop w args (uri ++ network) artifacts 0 []).2 := by
  have hn := getSigners_not_mem_deployAllLoop w args (uri ++ network) artifacts 0 [] (by simp)
  cases h : (deployAllLoop w args (uri ++ network) artifacts 0 []).1 with
  | error e =>
    rw [deployAll_error w artifacts args uri network e h]
    exact primaryEvents_self _ hn
  | ok u =>
    rw [deployAll_ok w artifacts args uri network h]
    obtain ⟨ext, hext, -, -⟩ :=
      deployPeriphery_trace w (deployAllLoop w args (uri ++ network) artifacts 0 []).2
    simp only [hext]
    exact primaryEvents_append _ _ hn

/-! ## Reading the calls of complete iterations -/

theorem World.Succeeds.primary {w : World} (hw : w.Succeeds) : w.PrimarySucceeds where
  lookup := fun t _ => hw.getContractFactory t
  deploys := fun t _ => hw.deploy t
  confirms := fun t _ => hw.deployed t
  configures := fun t _ => hw.updateBaseURI t
  verifies := fun t _ => hw.verify t

theorem World.succeeding_succeeds (signers : List Signer) : (World.succeeding signers).Succeeds where
  getContractFactory := fun _ => rfl
  deploy := fun _ => ⟨_, rfl⟩
  deployed := fun _ => rfl
  updateBaseURI := fun _ => rfl
  verify := fun _ => rfl
  getSigners := fun _ => ⟨_, rfl⟩

theorem filter_isDeployStep_primaryBlocks (uriBase : String) (as : List String)
    (xss : List (List String)) (ds : List Address) :
    (primaryBlocks uriBase as xss ds).filter isDeployStep = deploySteps as xss ds := by
  induction as generalizing xss ds with
  | nil => simp [primaryBlocks, deploySteps]
  | cons a as ih =>
    cases xss with
    | nil => simp [primaryBlocks, deploySteps]
    | cons xs xss =>
      cases ds with
      | nil => simp [primaryBlocks, deploySteps]
      | cons d ds =>
        simp [primaryBlocks, deploySteps, primaryBlock, List.filter_cons, isDeployStep, ih]

theorem filter_isDeploy_primaryBlocks (uriBase : String) (as : List String)
    (xss : List (List String)) (ds : List Address) (h : ds.length = as.length) :
    (primaryBlocks uriBase as xss ds).filter isDeploy =
      List.zipWith (fun a xs => Event.deploy a none xs) as xss := by
  induction as generalizing xss ds with
  | nil => simp [primaryBlocks]
  | cons a as ih =>
    cases xss with
    | nil => simp [primaryBlocks]
    | cons xs xss =>
      cases ds with
      | nil => simp at h
      | cons d ds =>
        simp only [List.length_cons, Nat.add_right_cancel_iff] at h
        simp [primaryBlocks, primaryBlock, List.filter_cons, isDeploy, ih xss ds h]

/-- When the collaborator calls of the loop succeed and every artifact has its
argument tuple, the loop of `deployAll` issues one complete block of calls per
artifact, in input order. -/
theorem deployAllLoop_trace (w : World) (hw : w.PrimarySucceeds) (artifacts : List String)
    (args : List (List String)) (uriBase : String) (hlen : args.length = artifacts.length) :
    ∃ addrs : List Address, addrs.length = artifacts.length ∧
      deployAllLoop w args uriBase artifacts 0 [] =
        (.ok (), primaryBlocks uriBase artifacts args addrs) := by
  have hok := deployAllLoop_succeeds w hw args uriBase artifacts 0 [] (by omega) (by simp)
  obtain ⟨addrs, hl, htr⟩ := deployAllLoop_ok w args uriBase artifacts 0 [] hok
  refine ⟨addrs, hl, ?_⟩
  rw [List.drop_zero, List.nil_append] at htr
  exact Prod.ext hok htr

/-! ## Every call of a trace -/

theorem eachCall_nil (q : Trace → Event → Trace → Prop) : EachCall q [] := by
  intro pre e post h
  simp at h

theorem eachCall_cons {q : Trace → Event → Trace → Prop} {e : Event} {l : Trace}
    (h1 : q [] e l) (h2 : EachCall (fun pre x post => q (e :: pre) x post) l) :
    EachCall q (e :: l) := by
  intro pre x post h
  cases pre with
  | nil =>
    simp only [List.nil_append, List.cons.injEq] at h
    obtain ⟨rfl, rfl⟩ := h
    exact h1
  | cons p pre =>
    simp only [List.cons_append, List.cons.injEq] at h
    obtain ⟨rfl, rfl⟩ := h
    exact h2 pre x post rfl

theorem eachCall_append {q : Trace → Event → Trace → Prop} {t1 t2 : Trace}
    (h1 : EachCall (fun pre e post => q pre e (post ++ t2)) t1)
    (h2 : EachCall (fun pre e post => q (t1 ++ pre) e post) t2) :
    EachCall q (t1 ++ t2) := by
  intro pre e post h
  rcases List.append_eq_append_iff.mp h with ⟨a, rfl, ha⟩ | ⟨c, hc, hc2⟩
  · exact h2 a e post ha
  · cases c with
    | nil =>
      simp only [List.append_nil] at hc
      subst hc
      simpa using h2 [] e post (by simpa using hc2.symm)
    | cons x c =>
      simp only [List.cons_append, List.cons.injEq] at hc2
      obtain ⟨rfl, rfl⟩ := hc2
      exact h1 pre e c hc

theorem eachCall_mono {q q2 : Trace → Event → Trace → Prop} {t : Trace}
    (h : EachCall q t) (hq : ∀ pre e post, q pre e post → q2 pre e post) : EachCall q2 t :=
  fun pre e post ht => hq _ _ _ (h pre e post ht)

theorem baseURIRule_extend (w : World) (uriBase : String) (pre : Trace) (e : Event)
    (post ext : Trace) (h : BaseURIRule w uriBase pre e post) :
    BaseURIRule w uriBase pre e (post ++ ext) := by
  refine ⟨h.1, fun a ha hn hok => ?_⟩
  obtain ⟨m, post0, rfl⟩ := h.2 a ha hn hok
  exact ⟨m, post0 ++ ext, by simp⟩

theorem baseURIRule_deployNFTContract (w : World) (uriBase artifact : String)
    (o : Option (List String)) (t : Trace) (ht : EachCall (BaseURIRule w uriBase) t) :
    EachCall (BaseURIRule w uriBase) (deployNFTContract w artifact o uriBase t).2 := by
  have hr := nftRun w uriBase artifact o t
  generalize deployNFTContract w artifact o uriBase t = r at hr
  cases hr with
  | factoryFails o e h1 =>
    refine eachCall_append (eachCall_mono ht fun _ _ _ => baseURIRule_extend _ _ _ _ _ _) ?_
    refine eachCall_cons ?_ (eachCall_nil _)
    simp [BaseURIRule]
  | spreadFails h1 =>
    refine eachCall_append (eachCall_mono ht fun _ _ _ => baseURIRule_extend _ _ _ _ _ _) ?_
    refine eachCall_cons ?_ (eachCall_nil _)
    simp [BaseURIRule]
  | deployFails xs e h1 h2 =>
    refine eachCall_append (eachCall_mono ht fun _ _ _ => baseURIRule_extend _ _ _ _ _ _) ?_
    refine eachCall_cons ?_ (eachCall_cons ?_ (eachCall_nil _)) <;> simp [BaseURIRule]
  | deployedFails xs c e h1 h2 h3 =>
    refine eachCall_append (eachCall_mono ht fun _ _ _ => baseURIRule_extend _ _ _ _ _ _) ?_
    refine eachCall_cons ?_ (eachCall_cons ?_ (eachCall_cons ?_ (eachCall_nil _)))
    · simp [BaseURIRule]
    · simp [BaseURIRule]
    · refine ⟨by simp, ?_⟩
      intro a ha _ hok
      cases ha
      simp only [List.append_assoc, List.cons_append, List.nil_append] at hok
      rw [h3] at hok
      cases hok
  | updateFails xs c e h1 h2 h3 h4 =>
    refine eachCall_append (eachCall_mono ht fun _ _ _ => baseURIRule_extend _ _ _ _ _ _) ?_
    simp only [primaryBlock, List.take]
    refine eachCall_cons ?_ (eachCall_cons ?_ (eachCall_cons ?_ (eachCall_cons ?_
      (eachCall_cons ?_ (eachCall_nil _)))))
    · simp [BaseURIRule]
    · simp [BaseURIRule]
    · refine ⟨by simp, ?_⟩
      intro a ha _ _
      cases ha
      exact ⟨_, _, rfl⟩
    · simp [BaseURIRule]
    · refine ⟨?_, by simp⟩
      intro a u ha
      cases ha
      exact ⟨rfl, t ++ [.getContractFactory artifact, .deploy artifact none xs],
        "new " ++ artifact ++ " contract deployed to " ++ c.address, by simp⟩
  | verifyAnswers xs c h1 h2 h3 h4 =>
    refine eachCall_append (eachCall_mono ht fun _ _ _ => baseURIRule_extend _ _ _ _ _ _) ?_
    simp only [primaryBlock]
    refine eachCall_cons ?_ (eachCall_cons ?_ (eachCall_cons ?_ (eachCall_cons ?_
      (eachCall_cons ?_ (eachCall_cons ?_ (eachCall_cons ?_ (eachCall_nil _)))))))
    · simp [BaseURIRule]
    · simp [BaseURIRule]
    · refine ⟨by simp, ?_⟩
      intro a ha _ _
      cases ha
      exact ⟨_, _, rfl⟩
    · simp [BaseURIRule]
    · refine ⟨?_, by simp⟩
      intro a u ha
      cases ha
      exact ⟨rfl, t ++ [.getContractFactory artifact, .deploy artifact none xs],
        "new " ++ artifact ++ " contract deployed to " ++ c.address, by simp⟩
    · simp [BaseURIRule]
    · simp [BaseURIRule]

theorem baseURIRule_deployAllLoop (w : World) (args : List (List String)) (uriBase : String)
    (l : List String) (i : Nat) (t : Trace) (ht : EachCall (BaseURIRule w uriBase) t) :
    EachCall (BaseURIRule w uriBase) (deployAllLoop w args uriBase l i t).2 := by
  induction l generalizing i t with
  | nil => simpa [deployAllLoop_nil] using ht
  | cons a rest ih =>
    rw [deployAllLoop_cons]
    have h2 := baseURIRule_deployNFTContract w uriBase a args[i]? t ht
    cases h1 : (deployNFTContract w a args[i]? uriBase t).1 with
    | error e => simpa using h2
    | ok u => exact ih _ _ h2

theorem baseURIRule_deployPeriphery (w : World) (uriBase : String) (t : Trace)
    (ht : EachCall (BaseURIRule w uriBase) t) :
    EachCall (BaseURIRule w uriBase) (deployPeriphery w t).2 := by
  obtain ⟨ext, hext, -, hno⟩ := deployPeriphery_trace w t
  rw [hext]
  refine eachCall_append (eachCall_mono ht fun _ _ _ => baseURIRule_extend _ _ _ _ _ _) ?_
  refine eachCall_cons (by simp [BaseURIRule]) ?_
  intro pre x post h
  refine ⟨fun a u hx => ?_, fun a _ hn => ?_⟩
  · exact absurd (by rw [h, hx]; simp) (hno a u)
  · exact absurd (by simp) hn

theorem baseURIRule_deployAll (w : World) (artifacts : List String) (args : List (List String))
    (uri network : String) :
    EachCall (BaseURIRule w (uri ++ network)) (deployAll w artifacts args uri network).trace := by
  have hl := baseURIRule_deployAllLoop w args (uri ++ network) artifacts 0 [] (eachCall_nil _)
  cases h : (deployAllLoop w args (uri ++ network) artifacts 0 []).1 with
  | error e =>
    rw [deployAll_error w artifacts args uri network e h]
    exact hl
  | ok u =>
    rw [deployAll_ok w artifacts args uri network h]
    exact baseURIRule_deployPeriphery w _ _ hl

/-! ## Complete runs -/

/-- When every collaborator call succeeds and `getSigners` yields a second signer,
`deployPeriphery` returns after its twelve calls. -/
theorem deployPeriphery_succeeds (w : World) (hw : w.Succeeds) (t : Trace)
    (signers : List Signer) (s : Signer) (h1 : w.getSigners (t ++ [.getSigners]) = .ok signers)
    (h2 : signers[1]? = some s) :
    ∃ p c : Address, deployPeriphery w t = (.ok (), t ++ peripheryBlock s p c) := by
  rw [deployPeriphery_eq]
  simp only [h1, h2, hw.getContractFactory, hw.deployed, hw.verify]
  obtain ⟨p, hp⟩ := hw.deploy (t ++ (peripheryBlock s "" "").take 3)
  simp only [hp]
  obtain ⟨c, hc⟩ := hw.deploy (t ++ (peripheryBlock s p.address "").take 7)
  simp only [hc]
  exact ⟨p.address, c.address, rfl⟩

/-- When `getSigners` yields fewer than two signers, `deployPeriphery` throws right
after that call. -/
theorem deployPeriphery_short (w : World) (t : Trace) (signers : List Signer)
    (h1 : w.getSigners (t ++ [.getSigners]) = .ok signers) (h2 : signers[1]? = none) :
    deployPeriphery w t =
      (.error (.typeError "Cannot read properties of undefined (reading address)"),
        t ++ [.getSigners]) := by
  rw [deployPeriphery_eq]
  simp only [h1, h2]

theorem filter_isVerify_primaryBlocks (uriBase : String) (as : List String)
    (xss : List (List String)) (ds : List Address) (h : ds.length = as.length) :
    (primaryBlocks uriBase as xss ds).filter isVerify =
      List.zipWith (fun a xs => Event.verify a (some xs)) ds xss := by
  induction as generalizing xss ds with
  | nil =>
    have : ds = [] := List.length_eq_zero.mp h
    simp [primaryBlocks, this]
  | cons a as ih =>
    cases xss with
    | nil => simp [primaryBlocks]
    | cons xs xss =>
      cases ds with
      | nil => simp at h
      | cons d ds =>
        simp only [List.length_cons, Nat.add_right_cancel_iff] at h
        simp [primaryBlocks, primaryBlock, List.filter_cons, isVerify, ih xss ds h]

theorem filterMap_verifyAddress_primaryBlocks (uriBase : String) (as : List String)
    (xss : List (List String)) (ds : List Address) :
    (primaryBlocks uriBase as xss ds).filterMap verifyAddress =
      (primaryBlocks uriBase as xss ds).filterMap deployedAddress := by
  induction as generalizing xss ds with
  | nil => simp [primaryBlocks]
  | cons a as ih =>
    cases xss with
    | nil => simp [primaryBlocks]
    | cons xs xss =>
      cases ds with
      | nil => simp [primaryBlocks]
      | cons d ds =>
        simp [primaryBlocks, primaryBlock, List.filterMap_cons, List.filterMap_append,
          verifyAddress, deployedAddress, ih xss ds]

theorem verifyRule_shift (t pre : Trace) (e : Event) (post post2 : Trace)
    (h : VerifyRule pre e post) : VerifyRule (t ++ pre) e post2 := by
  intro a o he
  obtain ⟨⟨p1, p2, p3, h1⟩, h2⟩ := h a o he
  refine ⟨⟨t ++ p1, p2, p3, by simp [h1]⟩, fun hn => ?_⟩
  obtain ⟨p0, artifact, xs, m, u, ho, hp⟩ := h2 (fun hm => hn (List.mem_append_right _ hm))
  exact ⟨t ++ p0, artifact, xs, m, u, ho, by simp [hp]⟩

theorem verifyRule_append {t1 t2 : Trace} (h1 : EachCall VerifyRule t1)
    (h2 : EachCall VerifyRule t2) : EachCall VerifyRule (t1 ++ t2) :=
  eachCall_append (eachCall_mono h1 fun _ _ _ h => h)
    (eachCall_mono h2 fun _ _ _ h => verifyRule_shift _ _ _ _ _ h)

theorem verifyRule_primaryBlock (uriBase artifact : String) (xs : List String) (a : Address) :
    EachCall VerifyRule (primaryBlock uriBase artifact xs a) := by
  simp only [primaryBlock]
  refine eachCall_cons ?_ (eachCall_cons ?_ (eachCall_cons ?_ (eachCall_cons ?_
    (eachCall_cons ?_ (eachCall_cons ?_ (eachCall_cons ?_ (eachCall_nil _)))))))
  · simp [VerifyRule]
  · simp [VerifyRule]
  · simp [VerifyRule]
  · simp [VerifyRule]
  · simp [VerifyRule]
  · simp [VerifyRule]
  · intro b o he
    cases he
    refine ⟨⟨[.getContractFactory artifact, .deploy artifact none xs],
      [.log ("new " ++ artifact ++ " contract deployed to " ++ a),
        .updateBaseURI a (uriBase ++ toLowerCase a ++ "/")], [], rfl⟩, fun _ => ?_⟩
    exact ⟨[.getContractFactory artifact], artifact, xs,
      "new " ++ artifact ++ " contract deployed to " ++ a, uriBase ++ toLowerCase a ++ "/",
      rfl, rfl⟩

theorem verifyRule_primaryBlocks (uriBase : String) (as : List String)
    (xss : List (List String)) (ds : List Address) :
    EachCall VerifyRule (primaryBlocks uriBase as xss ds) := by
  induction as generalizing xss ds with
  | nil => simpa [primaryBlocks] using eachCall_nil _
  | cons a as ih =>
    cases xss with
    | nil => simpa [primaryBlocks] using eachCall_nil _
    | cons xs xss =>
      cases ds with
      | nil => simpa [primaryBlocks] using eachCall_nil _
      | cons d ds =>
        simp only [primaryBlocks]
        exact verifyRule_append (verifyRule_primaryBlock _ _ _ _) (ih xss ds)

theorem verifyRule_peripheryBlock (s : Signer) (p c : Address) :
    EachCall VerifyRule (peripheryBlock s p c) := by
  simp only [peripheryBlock]
  refine eachCall_cons ?_ (eachCall_cons ?_ (eachCall_cons ?_ (eachCall_cons ?_
    (eachCall_cons ?_ (eachCall_cons ?_ (eachCall_cons ?_ (eachCall_cons ?_
    (eachCall_cons ?_ (eachCall_cons ?_ (eachCall_cons ?_ (eachCall_cons ?_
    (eachCall_nil _))))))))))))
  · simp [VerifyRule]
  · simp [VerifyRule]
  · simp [VerifyRule]
  · simp [VerifyRule]
  · simp [VerifyRule]
  · simp [VerifyRule]
  · simp [VerifyRule]
  · simp [VerifyRule]
  · simp [VerifyRule]
  · simp [VerifyRule]
  · intro b o he
    cases he
    refine ⟨⟨[.getSigners, .getContractFactory "BatchPlanner", .deploy "BatchPlanner" none [],
      .deployed p, .log ("new planner deployed to " ++ p), .getContractFactory "ClaimCampaigns",
      .deploy "ClaimCampaigns" (some s) [s.address]],
      [.log ("new claimer deployed to " ++ c)], [], rfl⟩, fun hn => ?_⟩
    exact absurd (by simp) hn
  · intro b o he
    cases he
    refine ⟨⟨[.getSigners, .getContractFactory "BatchPlanner", .deploy "BatchPlanner" none []],
      [.log ("new planner deployed to " ++ p), .getContractFactory "ClaimCampaigns",
        .deploy "ClaimCampaigns" (some s) [s.address], .deployed c,
        .log ("new claimer deployed to " ++ c)],
      [.verify c (some [s.address])], rfl⟩, fun hn => ?_⟩
    exact absurd (by simp) hn

/-- When every collaborator call succeeds, every artifact has its argument tuple and
`getSigners` yields at least two signers, a run of `deployAll` issues the blocks of
the loop followed by the twelve calls of `deployPeriphery`, and both settle well. -/
theorem deployAll_complete (w : World) (hw : w.Succeeds) (artifacts : List String)
    (args : List (List String)) (uri network : String) (hlen : args.length = artifacts.length)
    (hs : ∀ t signers, w.getSigners t = .ok signers → 2 ≤ signers.length) :
    ∃ (addrs : List Address) (signers : List Signer) (s : Signer) (p c : Address),
      addrs.length = artifacts.length ∧
      w.getSigners (primaryBlocks (uri ++ network) artifacts args addrs ++ [.getSigners]) =
        .ok signers ∧
      signers[1]? = some s ∧
      deployAll w artifacts args uri network =
        { result := .ok (), periphery := some (.ok ()),
          trace := primaryBlocks (uri ++ network) artifacts args addrs ++
            peripheryBlock s p c } := by
  obtain ⟨addrs, hl, htr⟩ := deployAllLoop_trace w hw.primary artifacts args (uri ++ network) hlen
  obtain ⟨signers, hsig⟩ :=
    hw.getSigners (primaryBlocks (uri ++ network) artifacts args addrs ++ [.getSigners])
  have h2 := hs _ _ hsig
  have hs1 : signers[1]? = some signers[1] := List.getElem?_eq_getElem (by omega)
  obtain ⟨p, c, hp⟩ := deployPeriphery_succeeds w hw _ signers signers[1] hsig hs1
  refine ⟨addrs, signers, signers[1], p, c, hl, hsig, hs1, ?_⟩
  rw [deployAll_ok w artifacts args uri network (by rw [htr]), htr, hp]

/-! ## Runs that throw -/

theorem firstIterations_trace (w : World) (artifacts : List String) (args : List (List String))
    (uri network : String) (k : Nat) (hk : k ≤ artifacts.length)
    (hpre : (firstIterations w artifacts args uri network k).1 = .ok ()) :
    ∃ addrs : List Address, addrs.length = k ∧
      (firstIterations w artifacts args uri network k).2 =
        primaryBlocks (uri ++ network) (artifacts.take k) args addrs := by
  obtain ⟨addrs, hl, htr⟩ := deployAllLoop_ok w args (uri ++ network) (artifacts.take k) 0 [] hpre
  refine ⟨addrs, by simp [hl, hk], ?_⟩
  rw [List.drop_zero, List.nil_append] at htr
  exact htr

/-- If the first `k` iterations return and iteration `k` throws, `deployAll` throws the
same error with the trace of that moment, and `deployPeriphery` is never called. -/
theorem deployAll_abort (w : World) (artifacts : List String) (args : List (List String))
    (uri network : String) (k : Nat) (artifact : String) (e : Err)
    (ha : artifacts[k]? = some artifact)
    (hpre : (firstIterations w artifacts args uri network k).1 = .ok ())
    (hrun : (deployNFTContract w artifact args[k]? (uri ++ network)
      (firstIterations w artifacts args uri network k).2).1 = .error e) :
    deployAll w artifacts args uri network =
      { result := .error e, periphery := none,
        trace := (deployNFTContract w artifact args[k]? (uri ++ network)
          (firstIterations w artifacts args uri network k).2).2 } := by
  have hk : k < artifacts.length := by
    rcases Nat.lt_or_ge k artifacts.length with h | h
    · exact h
    · rw [List.getElem?_eq_none h] at ha
      cases ha
  have hsplit : artifacts = artifacts.take k ++ artifact :: artifacts.drop (k + 1) := by
    rw [List.getElem?_eq_getElem hk] at ha
    rw [← Option.some.inj ha, ← List.drop_eq_getElem_cons hk, List.take_append_drop]
  have hloop : deployAllLoop w args (uri ++ network) artifacts 0 [] =
      (.error e, (deployNFTContract w artifact args[k]? (uri ++ network)
        (firstIterations w artifacts args uri network k).2).2) := by
    simp only [firstIterations] at hpre hrun ⊢
    conv_lhs => rw [hsplit]
    rw [deployAllLoop_append]
    simp only [hpre, List.length_take, Nat.min_eq_left (Nat.le_of_lt hk), Nat.zero_add]
    rw [deployAllLoop_cons]
    simp only [hrun]
  rw [deployAll_error w artifacts args uri network e (by rw [hloop]), hloop]

/-! ## Runs of `deployPeriphery` -/

theorem issued_eq {α : Type} (m : Script α) (t ext : Trace) (h : (m t).2 = t ++ ext) :
    issued m t = ext := by
  simp [issued, h]

/-- A call of `deployPeriphery` that returns has issued its twelve calls. -/
theorem deployPeriphery_ok (w : World) (t : Trace) (h : (deployPeriphery w t).1 = .ok ()) :
    ∃ (signers : List Signer) (s : Signer) (p c : Address),
      w.getSigners (t ++ [.getSigners]) = .ok signers ∧ signers[1]? = some s ∧
      (deployPeriphery w t).2 = t ++ peripheryBlock s p c := by
  rw [deployPeriphery_eq] at h ⊢
  cases h1 : w.getSigners (t ++ [.getSigners]) with
  | error e => simp [h1] at h
  | ok signers =>
    simp only [h1] at h ⊢
    cases h2 : signers[1]? with
    | none => simp [h2] at h
    | some s =>
      simp only [h2] at h ⊢
      cases h3 : w.getContractFactory (t ++ (peripheryBlock s "" "").take 2) with
      | error e => simp [h3] at h
      | ok u =>
        simp only [h3] at h ⊢
        cases h4 : w.deploy (t ++ (peripheryBlock s "" "").take 3) with
        | error e => simp [h4] at h
        | ok p =>
          simp only [h4] at h ⊢
          cases h5 : w.deployed (t ++ (peripheryBlock s p.address "").take 4) with
          | error e => simp [h5] at h
          | ok u =>
            simp only [h5] at h ⊢
            cases h6 : w.getContractFactory (t ++ (peripheryBlock s p.address "").take 6) with
            | error e => simp [h6] at h
            | ok u =>
              simp only [h6] at h ⊢
              cases h7 : w.deploy (t ++ (peripheryBlock s p.address "").take 7) with
              | error e => simp [h7] at h
              | ok c =>
                simp only [h7] at h ⊢
                cases h8 : w.deployed (t ++ (peripheryBlock s p.address c.address).take 8) with
                | error e => simp [h8] at h
                | ok u =>
                  simp only [h8] at h ⊢
                  cases h9 : w.verify (t ++ (peripheryBlock s p.address c.address).take 11) with
                  | error e => simp [h9] at h
                  | ok u =>
                    simp only [h9] at h ⊢
                    exact ⟨signers, s, p.address, c.address, rfl, h2, rfl⟩

/-! ## The claims -/

/-- C1. When every collaborator call succeeds and the `N` artifacts come with `N`
argument tuples, the loop of `deployAll` (the calls before `deployPeriphery` starts)
issues exactly `N` deploy calls, the `i`-th for `artifacts[i]` with arguments
`args[i]` on the default signer, in input order; and, restricted to deploy calls and
confirmation waits, its trace is `deploy 0, deployed 0, deploy 1, deployed 1, ...`:
the confirmation wait of each contract precedes the deploy call of the next. -/
theorem deployAll_deploys_in_order (w : World) (artifacts : List String)
    (args : List (List String)) (uri network : String) (hw : w.Succeeds)
    (hlen : args.length = artifacts.length) :
    ((primaryEvents (deployAll w artifacts args uri network).trace).filter isDeploy).length =
        artifacts.length ∧
      (primaryEvents (deployAll w artifacts args uri network).trace).filter isDeploy =
        List.zipWith (fun artifact xs => Event.deploy artifact none xs) artifacts args ∧
      ∃ addrs : List Address, addrs.length = artifacts.length ∧
        (primaryEvents (deployAll w artifacts args uri network).trace).filter isDeployStep =
          deploySteps artifacts args addrs := by
  obtain ⟨addrs, hl, htr⟩ := deployAllLoop_trace w hw.primary artifacts args (uri ++ network) hlen
  rw [primaryEvents_deployAll, htr]
  refine ⟨?_, ?_, addrs, hl, ?_⟩
  · rw [filter_isDeploy_primaryBlocks _ _ _ _ hl]
    simp [hlen]
  · exact filter_isDeploy_primaryBlocks _ _ _ _ hl
  · exact filter_isDeployStep_primaryBlocks _ _ _ _

/-- Witness for C1: the constants of the script, with collaborators that succeed. -/
theorem deployAll_deploys_in_order_witness :
    (World.succeeding [⟨"0xA1"⟩, ⟨"0xB2"⟩]).Succeeds ∧ args.length = artifacts.length ∧
      ((primaryEvents (deployAll (World.succeeding [⟨"0xA1"⟩, ⟨"0xB2"⟩]) artifacts args uri
          network).trace).filter isDeploy).length = artifacts.length ∧
      (primaryEvents (deployAll (World.succeeding [⟨"0xA1"⟩, ⟨"0xB2"⟩]) artifacts args uri
          network).trace).filter isDeploy =
        List.zipWith (fun artifact xs => Event.deploy artifact none xs) artifacts args ∧
      ∃ addrs : List Address, addrs.length = artifacts.length ∧
        (primaryEvents (deployAll (World.succeeding [⟨"0xA1"⟩, ⟨"0xB2"⟩]) artifacts args uri
          network).trace).filter isDeployStep = deploySteps artifacts args addrs :=
  ⟨World.succeeding_succeeds _, rfl,
    deployAll_deploys_in_order _ artifacts args uri network (World.succeeding_succeeds _) rfl⟩

/-- C2. In every run of `deployAll` with URI prefix `P` and network segment `S`,
whatever the collaborators answer: (1) every `updateBaseURI` call, issued on the
contract at address `A`, carries the string `P ++ S ++ lowercase(A) ++ "/"` and comes
right after the confirmation wait `deployed` of that same contract and its log line;
(2) every confirmation wait of the loop that succeeds (a primary contract deployed at
`A`) is followed by the log line and by the `updateBaseURI` call of that contract
with that string; (3) with the constants of the script the string is
`"https://dynamic-nft.hedgey.finance/mode/" ++ lowercase(A) ++ "/"`. -/
theorem deployAll_baseURI (w : World) (artifacts : List String) (args : List (List String))
    (P S : String) :
    (∀ pre A u post,
      (deployAll w artifacts args P S).trace = pre ++ Event.updateBaseURI A u :: post →
        u = P ++ S ++ toLowerCase A ++ "/" ∧
          ∃ pre0 m, pre = pre0 ++ [Event.deployed A, Event.log m]) ∧
    (∀ pre A post, (deployAll w artifacts args P S).trace = pre ++ Event.deployed A :: post →
      Event.getSigners ∉ pre → w.deployed (pre ++ [Event.deployed A]) = .ok () →
        ∃ m post0, post = Event.log m ::
          Event.updateBaseURI A (P ++ S ++ toLowerCase A ++ "/") :: post0) ∧
    (∀ pre A u post, (main w).trace = pre ++ Event.updateBaseURI A u :: post →
      u = "https://dynamic-nft.hedgey.finance/mode/" ++ toLowerCase A ++ "/") := by
  refine ⟨fun pre A u post h => ?_, fun pre A post h hn hok => ?_, fun pre A u post h => ?_⟩
  · exact (baseURIRule_deployAll w artifacts args P S pre _ post h).1 A u rfl
  · exact (baseURIRule_deployAll w artifacts args P S pre _ post h).2 A rfl hn hok
  · exact ((baseURIRule_deployAll w Deploy.artifacts Deploy.args uri network pre _ post h).1
      A u rfl).1

/-- Witness for C2: the first `updateBaseURI` call and the first confirmation wait of
a run on two contracts. -/
theorem deployAll_baseURI_witness :
    ("https://x/net/0xcf/" = "https://x/" ++ "net/" ++ toLowerCase "0xCF" ++ "/" ∧
      ∃ pre0 m, [Event.getContractFactory "A", Event.deploy "A" none ["A", "SA"],
        Event.deployed "0xCF", Event.log "new A contract deployed to 0xCF"] =
          pre0 ++ [Event.deployed "0xCF", Event.log m]) ∧
    ∃ m post0, (deployAll (World.succeeding [⟨"0xA1"⟩, ⟨"0xB2"⟩]) ["A", "B"]
        [["A", "SA"], ["B", "SB"]] "https://x/" "net/").trace.drop 3 =
      Event.log m :: Event.updateBaseURI "0xCF" ("https://x/" ++ "net/" ++ toLowerCase "0xCF" ++ "/")
        :: post0 :=
  ⟨(deployAll_baseURI (World.succeeding [⟨"0xA1"⟩, ⟨"0xB2"⟩]) ["A", "B"]
      [["A", "SA"], ["B", "SB"]] "https://x/" "net/").1
      [Event.getContractFactory "A", Event.deploy "A" none ["A", "SA"],
        Event.deployed "0xCF", Event.log "new A contract deployed to 0xCF"]
      "0xCF" "https://x/net/0xcf/"
      ((deployAll (World.succeeding [⟨"0xA1"⟩, ⟨"0xB2"⟩]) ["A", "B"]
        [["A", "SA"], ["B", "SB"]] "https://x/" "net/").trace.drop 5) rfl,
   (deployAll_baseURI (World.succeeding [⟨"0xA1"⟩, ⟨"0xB2"⟩]) ["A", "B"]
      [["A", "SA"], ["B", "SB"]] "https://x/" "net/").2.1
      [Event.getContractFactory "A", Event.deploy "A" none ["A", "SA"]] "0xCF"
      ((deployAll (World.succeeding [⟨"0xA1"⟩, ⟨"0xB2"⟩]) ["A", "B"]
        [["A", "SA"], ["B", "SB"]] "https://x/" "net/").trace.drop 3) rfl (by decide) rfl⟩

/-- C3, as amended. In every run of `deployAll` (which goes on into `deployPeriphery`) in
which every collaborator call succeeds, the `N` artifacts come with `N` argument
tuples and `getSigners` yields at least two signers: the trace is the `N` blocks of
the loop followed by the twelve calls of `deployPeriphery`; it contains exactly
`N + 2` verification requests, the `N` primary ones in input order, each carrying the
constructor arguments of its contract, then the Claimer and the Planner; the
addresses verified are, up to order, the addresses confirmed, one request per
deployed contract; and every request satisfies `VerifyRule`: it comes after the
confirmation wait of its own contract and after a settle delay of 10000 ms that
follows that confirmation, and a primary request carries the constructor arguments
passed to the deploy call of its contract. -/
theorem verification_once_per_contract (w : World) (artifacts : List String)
    (args : List (List String)) (uri network : String) (hw : w.Succeeds)
    (hlen : args.length = artifacts.length)
    (hs : ∀ t signers, w.getSigners t = .ok signers → 2 ≤ signers.length) :
    ∃ (addrs : List Address) (s : Signer) (p c : Address),
      addrs.length = artifacts.length ∧
      (deployAll w artifacts args uri network).trace =
        primaryBlocks (uri ++ network) artifacts args addrs ++ peripheryBlock s p c ∧
      ((deployAll w artifacts args uri network).trace.filter isVerify).length =
        artifacts.length + 2 ∧
      (deployAll w artifacts args uri network).trace.filter isVerify =
        List.zipWith (fun a xs => Event.verify a (some xs)) addrs args ++
          [Event.verify c (some [s.address]), Event.verify p none] ∧
      ((deployAll w artifacts args uri network).trace.filterMap verifyAddress).Perm
        ((deployAll w artifacts args uri network).trace.filterMap deployedAddress) ∧
      EachCall VerifyRule (deployAll w artifacts args uri network).trace := by
  obtain ⟨addrs, signers, s, p, c, hl, -, -, hrun⟩ :=
    deployAll_complete w hw artifacts args uri network hlen hs
  refine ⟨addrs, s, p, c, hl, by rw [hrun], ?_, ?_, ?_, ?_⟩
  · rw [hrun]
    simp only [List.filter_append, filter_isVerify_primaryBlocks _ _ _ _ hl, List.length_append,
      List.length_zipWith]
    simp [peripheryBlock, List.filter_cons, isVerify, hl, hlen]
  · rw [hrun]
    simp only [List.filter_append, filter_isVerify_primaryBlocks _ _ _ _ hl]
    simp [peripheryBlock, List.filter_cons, isVerify]
  · rw [hrun]
    simp only [List.filterMap_append, filterMap_verifyAddress_primaryBlocks]
    refine List.Perm.append (List.Perm.refl _) ?_
    simp only [peripheryBlock, List.filterMap_cons, verifyAddress, deployedAddress,
      List.filterMap_nil]
    exact List.Perm.swap _ _ _
  · rw [hrun]
    exact verifyRule_append (verifyRule_primaryBlocks _ _ _ _) (verifyRule_peripheryBlock _ _ _)

/-- Witness for C3 as amended: the constants of the script, with collaborators that
succeed and two signers. -/
theorem verification_once_per_contract_witness :
    (World.succeeding [⟨"0xA1"⟩, ⟨"0xB2"⟩]).Succeeds ∧ args.length = artifacts.length ∧
    (∀ t signers, (World.succeeding [⟨"0xA1"⟩, ⟨"0xB2"⟩]).getSigners t = .ok signers →
      2 ≤ signers.length) ∧
    ∃ (addrs : List Address) (s : Signer) (p c : Address),
      addrs.length = artifacts.length ∧
      (main (World.succeeding [⟨"0xA1"⟩, ⟨"0xB2"⟩])).trace =
        primaryBlocks (uri ++ network) artifacts args addrs ++ peripheryBlock s p c ∧
      ((main (World.succeeding [⟨"0xA1"⟩, ⟨"0xB2"⟩])).trace.filter isVerify).length =
        artifacts.length + 2 ∧
      (main (World.succeeding [⟨"0xA1"⟩, ⟨"0xB2"⟩])).trace.filter isVerify =
        List.zipWith (fun a xs => Event.verify a (some xs)) addrs args ++
          [Event.verify c (some [s.address]), Event.verify p none] ∧
      ((main (World.succeeding [⟨"0xA1"⟩, ⟨"0xB2"⟩])).trace.filterMap verifyAddress).Perm
        ((main (World.succeeding [⟨"0xA1"⟩, ⟨"0xB2"⟩])).trace.filterMap deployedAddress) ∧
      EachCall VerifyRule (main (World.succeeding [⟨"0xA1"⟩, ⟨"0xB2"⟩])).trace :=
  ⟨World.succeeding_succeeds _, rfl,
    fun _ _ h => by
      cases h
      exact Nat.le_refl 2,
    verification_once_per_contract (World.succeeding [⟨"0xA1"⟩, ⟨"0xB2"⟩]) artifacts args uri
      network (World.succeeding_succeeds _) rfl (fun _ _ h => by
        cases h
        exact Nat.le_refl 2)⟩

/-- Counterexample to C3 as stated: with a single signer every collaborator call
succeeds, yet `deployPeriphery` throws at `wallets[1].address` before any deployment,
and the run on two contracts contains two verification requests, not four. -/
theorem verification_single_signer :
    (World.succeeding [⟨"0xA1"⟩]).Succeeds ∧
    (deployAll (World.succeeding [⟨"0xA1"⟩]) ["A", "B"] [["A", "SA"], ["B", "SB"]]
      "https://x/" "net/").periphery =
      some (.error (.typeError "Cannot read properties of undefined (reading address)")) ∧
    (deployAll (World.succeeding [⟨"0xA1"⟩]) ["A", "B"] [["A", "SA"], ["B", "SB"]]
      "https://x/" "net/").trace.filter isVerify =
      [Event.verify "0xCF" (some ["A", "SA"]), Event.verify "0xCFF" (some ["B", "SB"])] ∧
    ((deployAll (World.succeeding [⟨"0xA1"⟩]) ["A", "B"] [["A", "SA"], ["B", "SB"]]
      "https://x/" "net/").trace.filter isVerify).length ≠ ["A", "B"].length + 2 :=
  ⟨World.succeeding_succeeds _, rfl, rfl, by decide⟩

/-- C4. If the first `k` iterations of the loop return and, in iteration `k`, the
factory lookup succeeds but the deploy call or the confirmation wait fails with `e`,
then `deployAll` fails with `e`, `deployPeriphery` is never started (no `getSigners`
call is issued), and the trace is the `k` complete blocks of the earlier contracts
followed only by the factory lookup and deploy call of contract `k` and, when the
deploy call succeeded, its confirmation wait: no factory lookup, deploy,
configuration or verification call is issued for any later contract. -/
theorem deployment_failure_aborts (w : World) (artifacts : List String)
    (args : List (List String)) (uri network : String) (k : Nat) (artifact : String)
    (xs : List String) (e : Err)
    (ha : artifacts[k]? = some artifact) (hx : args[k]? = some xs)
    (hpre : (firstIterations w artifacts args uri network k).1 = .ok ())
    (hf : w.getContractFactory ((firstIterations w artifacts args uri network k).2 ++
      [.getContractFactory artifact]) = .ok ())
    (hfail : w.deploy ((firstIterations w artifacts args uri network k).2 ++
        [.getContractFactory artifact, .deploy artifact none xs]) = .error e ∨
      ∃ c, w.deploy ((firstIterations w artifacts args uri network k).2 ++
          [.getContractFactory artifact, .deploy artifact none xs]) = .ok c ∧
        w.deployed ((firstIterations w artifacts args uri network k).2 ++
          [.getContractFactory artifact, .deploy artifact none xs, .deployed c.address]) =
            .error e) :
    (deployAll w artifacts args uri network).result = .error e ∧
    (deployAll w artifacts args uri network).periphery = none ∧
    Event.getSigners ∉ (deployAll w artifacts args uri network).trace ∧
    ∃ (addrs : List Address) (last : Trace), addrs.length = k ∧
      (last = [] ∨ ∃ a, last = [Event.deployed a]) ∧
      (deployAll w artifacts args uri network).trace =
        primaryBlocks (uri ++ network) (artifacts.take k) args addrs ++
          Event.getContractFactory artifact :: Event.deploy artifact none xs :: last := by
  have hk : k ≤ artifacts.length := by
    rcases Nat.lt_or_ge k artifacts.length with h | h
    · exact Nat.le_of_lt h
    · rw [List.getElem?_eq_none h] at ha
      cases ha
  obtain ⟨addrs, hl, htr⟩ := firstIterations_trace w artifacts args uri network k hk hpre
  have hrun : ∃ last, (last = [] ∨ ∃ a, last = [Event.deployed a]) ∧
      deployNFTContract w artifact args[k]? (uri ++ network)
        (firstIterations w artifacts args uri network k).2 =
      (.error e, (firstIterations w artifacts args uri network k).2 ++
        Event.getContractFactory artifact :: Event.deploy artifact none xs :: last) := by
    rw [hx, deployNFTContract_some]
    rcases hfail with hd | ⟨c, hd, hc⟩
    · exact ⟨[], Or.inl rfl, by simp only [hf, hd]⟩
    · exact ⟨[.deployed c.address], Or.inr ⟨_, rfl⟩, by
        simp only [hf, hd, primaryBlock, List.take, hc]⟩
  obtain ⟨last, hlast, hrun⟩ := hrun
  have hab := deployAll_abort w artifacts args uri network k artifact e ha hpre (by rw [hrun])
  rw [hrun] at hab
  rw [hab]
  refine ⟨rfl, rfl, ?_, addrs, last, hl, hlast, by rw [htr]⟩
  rw [htr]
  simp only [List.mem_append, List.mem_cons, not_or]
  refine ⟨getSigners_not_mem_primaryBlocks _ _ _ _, by simp, by simp, ?_⟩
  rcases hlast with rfl | ⟨a, rfl⟩ <;> simp

/-- Witness for C4: three contracts, the deploy call of the second one (the ninth
call of the run) is rejected. -/
theorem deployment_failure_aborts_witness :
    (deployAll (World.failingAt 9 (World.succeeding [⟨"0xA1"⟩, ⟨"0xB2"⟩])) ["A", "B", "C"]
      [["A", "SA"], ["B", "SB"], ["C", "SC"]] "https://x/" "net/").result =
      .error (.rejected "deploy") ∧
    (deployAll (World.failingAt 9 (World.succeeding [⟨"0xA1"⟩, ⟨"0xB2"⟩])) ["A", "B", "C"]
      [["A", "SA"], ["B", "SB"], ["C", "SC"]] "https://x/" "net/").periphery = none ∧
    Event.getSigners ∉ (deployAll (World.failingAt 9 (World.succeeding [⟨"0xA1"⟩, ⟨"0xB2"⟩]))
      ["A", "B", "C"] [["A", "SA"], ["B", "SB"], ["C", "SC"]] "https://x/" "net/").trace ∧
    ∃ (addrs : List Address) (last : Trace), addrs.length = 1 ∧
      (last = [] ∨ ∃ a, last = [Event.deployed a]) ∧
      (deployAll (World.failingAt 9 (World.succeeding [⟨"0xA1"⟩, ⟨"0xB2"⟩])) ["A", "B", "C"]
        [["A", "SA"], ["B", "SB"], ["C", "SC"]] "https://x/" "net/").trace =
        primaryBlocks ("https://x/" ++ "net/") (["A", "B", "C"].take 1)
          [["A", "SA"], ["B", "SB"], ["C", "SC"]] addrs ++
          Event.getContractFactory "B" :: Event.deploy "B" none ["B", "SB"] :: last :=
  deployment_failure_aborts (World.failingAt 9 (World.succeeding [⟨"0xA1"⟩, ⟨"0xB2"⟩]))
    ["A", "B", "C"] [["A", "SA"], ["B", "SB"], ["C", "SC"]] "https://x/" "net/" 1 "B"
    ["B", "SB"] (.rejected "deploy") rfl rfl rfl rfl (Or.inl rfl)

/-- C5, as amended. Whenever `deployPeriphery` is started, after any trace `t` (so
whatever the loop of `deployAll` did before: the function takes no input from it), if
every collaborator call succeeds and `getSigners` yields at least two signers, it
issues exactly two deploy calls: one for `BatchPlanner` with no constructor argument
and one for `ClaimCampaigns` with exactly one constructor argument, the address of
the second signer. -/
theorem deployPeriphery_deploys (w : World) (t : Trace) (signers : List Signer)
    (hw : w.Succeeds) (hs : w.getSigners (t ++ [.getSigners]) = .ok signers)
    (h2 : 2 ≤ signers.length) :
    ((issued (deployPeriphery w) t).filter isDeploy).length = 2 ∧
    ∃ s, signers[1]? = some s ∧
      (issued (deployPeriphery w) t).filter isDeploy =
        [Event.deploy "BatchPlanner" none [],
          Event.deploy "ClaimCampaigns" (some s) [s.address]] := by
  have hs1 : signers[1]? = some signers[1] := List.getElem?_eq_getElem (by omega)
  obtain ⟨p, c, hp⟩ := deployPeriphery_succeeds w hw t signers signers[1] hs hs1
  rw [issued_eq _ _ _ (by rw [hp])]
  exact ⟨by simp [peripheryBlock, List.filter_cons, isDeploy], signers[1], hs1,
    by simp [peripheryBlock, List.filter_cons, isDeploy]⟩

/-- Witness for C5 as amended: two signers, started after the loop has run on the
constants of the script. -/
theorem deployPeriphery_deploys_witness :
    (World.succeeding [⟨"0xA1"⟩, ⟨"0xB2"⟩]).Succeeds ∧
    ((issued (deployPeriphery (World.succeeding [⟨"0xA1"⟩, ⟨"0xB2"⟩]))
      (deployAllLoop (World.succeeding [⟨"0xA1"⟩, ⟨"0xB2"⟩]) args (uri ++ network)
        artifacts 0 []).2).filter isDeploy).length = 2 ∧
    ∃ s, [(⟨"0xA1"⟩ : Signer), ⟨"0xB2"⟩][1]? = some s ∧
      (issued (deployPeriphery (World.succeeding [⟨"0xA1"⟩, ⟨"0xB2"⟩]))
        (deployAllLoop (World.succeeding [⟨"0xA1"⟩, ⟨"0xB2"⟩]) args (uri ++ network)
          artifacts 0 []).2).filter isDeploy =
        [Event.deploy "BatchPlanner" none [],
          Event.deploy "ClaimCampaigns" (some s) [s.address]] :=
  ⟨World.succeeding_succeeds _,
    deployPeriphery_deploys (World.succeeding [⟨"0xA1"⟩, ⟨"0xB2"⟩])
      (deployAllLoop (World.succeeding [⟨"0xA1"⟩, ⟨"0xB2"⟩]) args (uri ++ network)
        artifacts 0 []).2 [⟨"0xA1"⟩, ⟨"0xB2"⟩] (World.succeeding_succeeds _) rfl
      (Nat.le_refl 2)⟩

/-- Counterexample to C5 as stated: with a signer list of one entry every collaborator
call succeeds, yet `deployPeriphery` throws at `wallets[1].address` right after
`getSigners` and issues no deploy call at all. -/
theorem deployPeriphery_single_signer :
    (World.succeeding [⟨"0xA1"⟩]).Succeeds ∧
    deployPeriphery (World.succeeding [⟨"0xA1"⟩]) [] =
      (.error (.typeError "Cannot read properties of undefined (reading address)"),
        [Event.getSigners]) ∧
    (issued (deployPeriphery (World.succeeding [⟨"0xA1"⟩])) []).filter isDeploy = [] ∧
    ((issued (deployPeriphery (World.succeeding [⟨"0xA1"⟩])) []).filter isDeploy).length ≠ 2 :=
  ⟨World.succeeding_succeeds _, rfl, rfl, by decide⟩

/-- C6, as amended. A failure of the verification submission is fatal to the run: if the
first `i` iterations of the loop return and, in iteration `i`, every call up to the
settle delay succeeds but the verification request fails with `e`, then `deployAll`
fails with `e`, `deployPeriphery` is never started, and the trace ends with that
verification request: it is the `i` complete blocks of the earlier contracts
followed by the block of contract `i`, with `i + 1` deploy calls in all, none for
a later contract. -/
theorem verification_failure_aborts (w : World) (artifacts : List String)
    (args : List (List String)) (uri network : String) (i : Nat) (artifact : String)
    (xs : List String) (c : Contract) (e : Err)
    (ha : artifacts[i]? = some artifact) (hx : args[i]? = some xs)
    (hpre : (firstIterations w artifacts args uri network i).1 = .ok ())
    (hf : w.getContractFactory ((firstIterations w artifacts args uri network i).2 ++
      [.getContractFactory artifact]) = .ok ())
    (hd : w.deploy ((firstIterations w artifacts args uri network i).2 ++
      [.getContractFactory artifact, .deploy artifact none xs]) = .ok c)
    (hc : w.deployed ((firstIterations w artifacts args uri network i).2 ++
      (primaryBlock (uri ++ network) artifact xs c.address).take 3) = .ok ())
    (hu : w.updateBaseURI ((firstIterations w artifacts args uri network i).2 ++
      (primaryBlock (uri ++ network) artifact xs c.address).take 5) = .ok ())
    (hv : w.verify ((firstIterations w artifacts args uri network i).2 ++
      primaryBlock (uri ++ network) artifact xs c.address) = .error e) :
    (deployAll w artifacts args uri network).result = .error e ∧
    (deployAll w artifacts args uri network).periphery = none ∧
    Event.getSigners ∉ (deployAll w artifacts args uri network).trace ∧
    ((deployAll w artifacts args uri network).trace.filter isDeploy).length = i + 1 ∧
    ∃ addrs : List Address, addrs.length = i ∧
      (deployAll w artifacts args uri network).trace =
        primaryBlocks (uri ++ network) (artifacts.take i) args addrs ++
          primaryBlock (uri ++ network) artifact xs c.address := by
  have hk : i ≤ artifacts.length := by
    rcases Nat.lt_or_ge i artifacts.length with h | h
    · exact Nat.le_of_lt h
    · rw [List.getElem?_eq_none h] at ha
      cases ha
  have hik : i < args.length := by
    rcases Nat.lt_or_ge i args.length with h | h
    · exact h
    · rw [List.getElem?_eq_none h] at hx
      cases hx
  obtain ⟨addrs, hl, htr⟩ := firstIterations_trace w artifacts args uri network i hk hpre
  have hrun : deployNFTContract w artifact args[i]? (uri ++ network)
        (firstIterations w artifacts args uri network i).2 =
      (.error e, (firstIterations w artifacts args uri network i).2 ++
        primaryBlock (uri ++ network) artifact xs c.address) := by
    rw [hx, deployNFTContract_some]
    simp only [hf, hd, hc, hu, hv]
  have hab := deployAll_abort w artifacts args uri network i artifact e ha hpre (by rw [hrun])
  rw [hrun] at hab
  rw [hab]
  refine ⟨rfl, rfl, ?_, ?_, addrs, hl, by rw [htr]⟩
  · rw [htr]
    simp only [List.mem_append, not_or]
    exact ⟨getSigners_not_mem_primaryBlocks _ _ _ _, getSigners_not_mem_primaryBlock _ _ _ _⟩
  · rw [htr]
    simp only [List.filter_append, List.length_append,
      filter_isDeploy_primaryBlocks _ _ _ _ (by simp [hl, hk] : addrs.length = (artifacts.take i).length),
      List.length_zipWith, List.length_take]
    simp only [primaryBlock, List.filter_cons, isDeploy]
    simp
    omega

/-- Witness for C6 as amended: two contracts, the verification request of the first
one (the seventh call of the run) is rejected. -/
theorem verification_failure_aborts_witness :
    (deployAll (World.failingAt 7 (World.succeeding [⟨"0xA1"⟩, ⟨"0xB2"⟩])) ["A", "B"]
      [["A", "SA"], ["B", "SB"]] "https://x/" "net/").result = .error (.rejected "verify") ∧
    (deployAll (World.failingAt 7 (World.succeeding [⟨"0xA1"⟩, ⟨"0xB2"⟩])) ["A", "B"]
      [["A", "SA"], ["B", "SB"]] "https://x/" "net/").periphery = none ∧
    Event.getSigners ∉ (deployAll (World.failingAt 7 (World.succeeding [⟨"0xA1"⟩, ⟨"0xB2"⟩]))
      ["A", "B"] [["A", "SA"], ["B", "SB"]] "https://x/" "net/").trace ∧
    ((deployAll (World.failingAt 7 (World.succeeding [⟨"0xA1"⟩, ⟨"0xB2"⟩])) ["A", "B"]
      [["A", "SA"], ["B", "SB"]] "https://x/" "net/").trace.filter isDeploy).length = 0 + 1 ∧
    ∃ addrs : List Address, addrs.length = 0 ∧
      (deployAll (World.failingAt 7 (World.succeeding [⟨"0xA1"⟩, ⟨"0xB2"⟩])) ["A", "B"]
        [["A", "SA"], ["B", "SB"]] "https://x/" "net/").trace =
        primaryBlocks ("https://x/" ++ "net/") (["A", "B"].take 0) [["A", "SA"], ["B", "SB"]]
          addrs ++ primaryBlock ("https://x/" ++ "net/") "A" ["A", "SA"] "0xCF" :=
  verification_failure_aborts (World.failingAt 7 (World.succeeding [⟨"0xA1"⟩, ⟨"0xB2"⟩]))
    ["A", "B"] [["A", "SA"], ["B", "SB"]] "https://x/" "net/" 0 "A" ["A", "SA"] ⟨"0xCF"⟩
    (.rejected "verify") rfl rfl rfl rfl rfl rfl rfl rfl

/-- Counterexample to C6 as stated: on two contracts, rejecting the verification request
of the first one leaves a single deploy call and `deployPeriphery` not started, while
the run in which that request succeeds goes on to deploy the second contract, the
Planner and the Claimer. -/
theorem verification_failure_changes_run :
    (deployAll (World.failingAt 7 (World.succeeding [⟨"0xA1"⟩, ⟨"0xB2"⟩])) ["A", "B"]
      [["A", "SA"], ["B", "SB"]] "https://x/" "net/").trace.filter isDeploy =
      [Event.deploy "A" none ["A", "SA"]] ∧
    (deployAll (World.failingAt 7 (World.succeeding [⟨"0xA1"⟩, ⟨"0xB2"⟩])) ["A", "B"]
      [["A", "SA"], ["B", "SB"]] "https://x/" "net/").periphery = none ∧
    (deployAll (World.succeeding [⟨"0xA1"⟩, ⟨"0xB2"⟩]) ["A", "B"]
      [["A", "SA"], ["B", "SB"]] "https://x/" "net/").trace.filter isDeploy =
      [Event.deploy "A" none ["A", "SA"], Event.deploy "B" none ["B", "SB"],
        Event.deploy "BatchPlanner" none [],
        Event.deploy "ClaimCampaigns" (some ⟨"0xB2"⟩) ["0xB2"]] ∧
    (deployAll (World.succeeding [⟨"0xA1"⟩, ⟨"0xB2"⟩]) ["A", "B"]
      [["A", "SA"], ["B", "SB"]] "https://x/" "net/").periphery = some (.ok ()) :=
  ⟨rfl, rfl, rfl, rfl⟩

/-- C7, as amended. In `deployPeriphery`, when every collaborator call succeeds and
`getSigners` yields at least two signers, the only `ClaimCampaigns` deploy call has
the address of the second signer as its single constructor argument and is connected
to that same second signer: the donation recipient is the identity that deploys the
Claimer. -/
theorem claimer_recipient_is_its_signer (w : World) (t : Trace) (signers : List Signer)
    (hw : w.Succeeds) (hs : w.getSigners (t ++ [.getSigners]) = .ok signers)
    (h2 : 2 ≤ signers.length) :
    ∃ s, signers[1]? = some s ∧
      Event.deploy "ClaimCampaigns" (some s) [s.address] ∈ issued (deployPeriphery w) t ∧
      ∀ signer xs, Event.deploy "ClaimCampaigns" signer xs ∈ issued (deployPeriphery w) t →
        signer = some s ∧ xs = [s.address] := by
  have hs1 : signers[1]? = some signers[1] := List.getElem?_eq_getElem (by omega)
  obtain ⟨p, c, hp⟩ := deployPeriphery_succeeds w hw t signers signers[1] hs hs1
  rw [issued_eq _ _ _ (by rw [hp])]
  refine ⟨signers[1], hs1, by simp [peripheryBlock], fun signer xs h => ?_⟩
  simpa [peripheryBlock] using h

/-- Witness for C7 as amended: two signers with distinct addresses. -/
theorem claimer_recipient_is_its_signer_witness :
    ∃ s, [(⟨"0xA1"⟩ : Signer), ⟨"0xB2"⟩][1]? = some s ∧
      Event.deploy "ClaimCampaigns" (some s) [s.address] ∈
        issued (deployPeriphery (World.succeeding [⟨"0xA1"⟩, ⟨"0xB2"⟩])) [] ∧
      ∀ signer xs, Event.deploy "ClaimCampaigns" signer xs ∈
          issued (deployPeriphery (World.succeeding [⟨"0xA1"⟩, ⟨"0xB2"⟩])) [] →
        signer = some s ∧ xs = [s.address] :=
  claimer_recipient_is_its_signer (World.succeeding [⟨"0xA1"⟩, ⟨"0xB2"⟩]) []
    [⟨"0xA1"⟩, ⟨"0xB2"⟩] (World.succeeding_succeeds _) rfl (Nat.le_refl 2)

/-- Counterexample to C7 as stated: the two signers have distinct addresses, the Claimer
deploy call is connected to the signer with address `0xB2`, and the recipient address
it passes is `0xB2` as well. -/
theorem claimer_recipient_equals_deployer :
    ([(⟨"0xA1"⟩ : Signer), ⟨"0xB2"⟩].map Signer.address).Nodup ∧
    (issued (deployPeriphery (World.succeeding [⟨"0xA1"⟩, ⟨"0xB2"⟩])) []).filter isDeploy =
      [Event.deploy "BatchPlanner" none [],
        Event.deploy "ClaimCampaigns" (some ⟨"0xB2"⟩) ["0xB2"]] ∧
    ∃ s recipient, Event.deploy "ClaimCampaigns" (some s) [recipient] ∈
        issued (deployPeriphery (World.succeeding [⟨"0xA1"⟩, ⟨"0xB2"⟩])) [] ∧
      recipient = s.address :=
  ⟨by decide, rfl, ⟨"0xB2"⟩, "0xB2", by decide, rfl⟩

/-- C8. In every run of `deployPeriphery` that returns, started after any trace, the
calls issued are the twelve calls of `peripheryBlock`: both confirmation waits, one
settle delay of 10000 ms, and after it, as the last two calls, exactly two
verification requests: one for the Claimer address with the one-element argument
list holding the recipient address, then one for the Planner address, written without
a `constructorArguments` key, which conveys the empty argument list. -/
theorem deployPeriphery_verifies (w : World) (t : Trace)
    (h : (deployPeriphery w t).1 = .ok ()) :
    ∃ (signers : List Signer) (s : Signer) (p c : Address) (before : Trace),
      w.getSigners (t ++ [.getSigners]) = .ok signers ∧ signers[1]? = some s ∧
      issued (deployPeriphery w) t = peripheryBlock s p c ∧
      issued (deployPeriphery w) t = before ++ [Event.setTimeout 10000,
        Event.verify c (some [s.address]), Event.verify p none] ∧
      Event.deployed p ∈ before ∧ Event.deployed c ∈ before ∧
      before.filter isSetTimeout = [] ∧ before.filter isVerify = [] ∧
      verifications (issued (deployPeriphery w) t) = [(c, [s.address]), (p, [])] := by
  obtain ⟨signers, s, p, c, h1, h2, h3⟩ := deployPeriphery_ok w t h
  rw [issued_eq _ _ _ h3]
  refine ⟨signers, s, p, c, (peripheryBlock s p c).take 9, h1, h2, rfl, ?_, ?_, ?_, ?_, ?_, ?_⟩
  all_goals simp [peripheryBlock, List.filter_cons, isSetTimeout, isVerify, verifications]

/-- Witness for C8: a run with two signers. -/
theorem deployPeriphery_verifies_witness :
    ∃ (signers : List Signer) (s : Signer) (p c : Address) (before : Trace),
      (World.succeeding [⟨"0xA1"⟩, ⟨"0xB2"⟩]).getSigners ([] ++ [.getSigners]) = .ok signers ∧
      signers[1]? = some s ∧
      issued (deployPeriphery (World.succeeding [⟨"0xA1"⟩, ⟨"0xB2"⟩])) [] =
        peripheryBlock s p c ∧
      issued (deployPeriphery (World.succeeding [⟨"0xA1"⟩, ⟨"0xB2"⟩])) [] =
        before ++ [Event.setTimeout 10000, Event.verify c (some [s.address]),
          Event.verify p none] ∧
      Event.deployed p ∈ before ∧ Event.deployed c ∈ before ∧
      before.filter isSetTimeout = [] ∧ before.filter isVerify = [] ∧
      verifications (issued (deployPeriphery (World.succeeding [⟨"0xA1"⟩, ⟨"0xB2"⟩])) []) =
        [(c, [s.address]), (p, [])] :=
  deployPeriphery_verifies (World.succeeding [⟨"0xA1"⟩, ⟨"0xB2"⟩]) [] rfl

/-- C9. For every list of artifacts with as many argument tuples (the empty list
included), when the collaborator calls of the loop succeed, whatever the
collaborators answer to `deployPeriphery`: `deployAll` returns normally; it starts
`deployPeriphery` exactly once (its promise exists and the trace contains exactly one
`getSigners` call); the loop issues one deploy call per artifact; and the trace is the
complete blocks of all the artifacts followed by the calls that `deployPeriphery`
issues when started after them, so every call of the loop precedes every call of
`deployPeriphery`.  The result is `ok` whatever the unawaited promise settles to. -/
theorem deployAll_then_periphery (w : World) (artifacts : List String)
    (args : List (List String)) (uri network : String) (hw : w.PrimarySucceeds)
    (hlen : args.length = artifacts.length) :
    (deployAll w artifacts args uri network).result = .ok () ∧
    (deployAll w artifacts args uri network).periphery =
      some (deployPeriphery w (primaryEvents (deployAll w artifacts args uri network).trace)).1 ∧
    (deployAll w artifacts args uri network).trace.count Event.getSigners = 1 ∧
    ((primaryEvents (deployAll w artifacts args uri network).trace).filter isDeploy).length =
      artifacts.length ∧
    ∃ addrs : List Address, addrs.length = artifacts.length ∧
      primaryEvents (deployAll w artifacts args uri network).trace =
        primaryBlocks (uri ++ network) artifacts args addrs ∧
      peripheryEvents (deployAll w artifacts args uri network).trace =
        issued (deployPeriphery w) (primaryBlocks (uri ++ network) artifacts args addrs) ∧
      (deployAll w artifacts args uri network).trace =
        primaryBlocks (uri ++ network) artifacts args addrs ++
          issued (deployPeriphery w) (primaryBlocks (uri ++ network) artifacts args addrs) := by
  obtain ⟨addrs, hl, htr⟩ := deployAllLoop_trace w hw artifacts args (uri ++ network) hlen
  obtain ⟨ext, hext, hno, -⟩ :=
    deployPeriphery_trace w (primaryBlocks (uri ++ network) artifacts args addrs)
  have hnb := getSigners_not_mem_primaryBlocks (uri ++ network) artifacts args addrs
  have hp : primaryEvents (deployAll w artifacts args uri network).trace =
      primaryBlocks (uri ++ network) artifacts args addrs := by
    rw [primaryEvents_deployAll, htr]
  have hi := issued_eq _ _ _ hext
  have hrun : deployAll w artifacts args uri network =
      { result := .ok (),
        periphery := some
          (deployPeriphery w (primaryBlocks (uri ++ network) artifacts args addrs)).1,
        trace := primaryBlocks (uri ++ network) artifacts args addrs ++ .getSigners :: ext } := by
    rw [deployAll_ok w artifacts args uri network (by rw [htr]), htr, hext]
  rw [hp, hrun]
  refine ⟨rfl, rfl, ?_, ?_, addrs, hl, rfl, ?_, ?_⟩
  rotate_left 2
  · rw [hi]
    exact peripheryEvents_append _ _ hnb
  · rw [hi]
  · rw [List.count_append, List.count_cons_self, List.count_eq_zero_of_not_mem hnb,
      List.count_eq_zero_of_not_mem hno]
  · rw [filter_isDeploy_primaryBlocks _ _ _ _ hl]
    simp [hlen]

/-- Witness for C9: the empty list of artifacts and a single signer, where
`deployPeriphery` is started, throws, and `deployAll` still returns normally. -/
theorem deployAll_then_periphery_witness :
    (World.succeeding [⟨"0xA1"⟩]).PrimarySucceeds ∧
    (deployAll (World.succeeding [⟨"0xA1"⟩]) [] [] uri network).periphery =
      some (.error (.typeError "Cannot read properties of undefined (reading address)")) ∧
    (deployAll (World.succeeding [⟨"0xA1"⟩]) [] [] uri network).result = .ok () ∧
    (deployAll (World.succeeding [⟨"0xA1"⟩]) [] [] uri network).periphery =
      some (deployPeriphery (World.succeeding [⟨"0xA1"⟩])
        (primaryEvents (deployAll (World.succeeding [⟨"0xA1"⟩]) [] [] uri network).trace)).1 ∧
    (deployAll (World.succeeding [⟨"0xA1"⟩]) [] [] uri network).trace.count
      Event.getSigners = 1 ∧
    ((primaryEvents (deployAll (World.succeeding [⟨"0xA1"⟩]) [] [] uri
      network).trace).filter isDeploy).length = ([] : List String).length ∧
    ∃ addrs : List Address, addrs.length = ([] : List String).length ∧
      primaryEvents (deployAll (World.succeeding [⟨"0xA1"⟩]) [] [] uri network).trace =
        primaryBlocks (uri ++ network) [] [] addrs ∧
      peripheryEvents (deployAll (World.succeeding [⟨"0xA1"⟩]) [] [] uri network).trace =
        issued (deployPeriphery (World.succeeding [⟨"0xA1"⟩]))
          (primaryBlocks (uri ++ network) [] [] addrs) ∧
      (deployAll (World.succeeding [⟨"0xA1"⟩]) [] [] uri network).trace =
        primaryBlocks (uri ++ network) [] [] addrs ++
          issued (deployPeriphery (World.succeeding [⟨"0xA1"⟩]))
            (primaryBlocks (uri ++ network) [] [] addrs) :=
  ⟨(World.succeeding_succeeds _).primary, rfl,
    deployAll_then_periphery (World.succeeding [⟨"0xA1"⟩]) [] [] uri network
      (World.succeeding_succeeds _).primary rfl⟩

/-- C10, as amended. A failed `updateBaseURI` call is fatal to the run: if the first `i`
iterations of the loop return and, in iteration `i`, the factory lookup, the deploy
call and the confirmation wait succeed but the `updateBaseURI` call fails with `e`,
then `deployAll` fails with `e`, `deployPeriphery` is never started, and the trace
ends with that `updateBaseURI` call: after the `i` complete blocks of the earlier
contracts come only the factory lookup, deploy call, confirmation wait, log line and
`updateBaseURI` call of contract `i`, so no settle delay and no verification request
is issued for it and no call at all for a later contract. -/
theorem updateBaseURI_failure_aborts (w : World) (artifacts : List String)
    (args : List (List String)) (uri network : String) (i : Nat) (artifact : String)
    (xs : List String) (c : Contract) (e : Err)
    (ha : artifacts[i]? = some artifact) (hx : args[i]? = some xs)
    (hpre : (firstIterations w artifacts args uri network i).1 = .ok ())
    (hf : w.getContractFactory ((firstIterations w artifacts args uri network i).2 ++
      [.getContractFactory artifact]) = .ok ())
    (hd : w.deploy ((firstIterations w artifacts args uri network i).2 ++
      [.getContractFactory artifact, .deploy artifact none xs]) = .ok c)
    (hc : w.deployed ((firstIterations w artifacts args uri network i).2 ++
      [.getContractFactory artifact, .deploy artifact none xs, .deployed c.address]) = .ok ())
    (hu : w.updateBaseURI ((firstIterations w artifacts args uri network i).2 ++
      [.getContractFactory artifact, .deploy artifact none xs, .deployed c.address,
        .log ("new " ++ artifact ++ " contract deployed to " ++ c.address),
        .updateBaseURI c.address (uri ++ network ++ toLowerCase c.address ++ "/")]) =
          .error e) :
    (deployAll w artifacts args uri network).result = .error e ∧
    (deployAll w artifacts args uri network).periphery = none ∧
    Event.getSigners ∉ (deployAll w artifacts args uri network).trace ∧
    (deployAll w artifacts args uri network).trace.getLast? =
      some (Event.updateBaseURI c.address (uri ++ network ++ toLowerCase c.address ++ "/")) ∧
    ∃ addrs : List Address, addrs.length = i ∧
      (deployAll w artifacts args uri network).trace =
        primaryBlocks (uri ++ network) (artifacts.take i) args addrs ++
          [Event.getContractFactory artifact, Event.deploy artifact none xs,
            Event.deployed c.address,
            Event.log ("new " ++ artifact ++ " contract deployed to " ++ c.address),
            Event.updateBaseURI c.address (uri ++ network ++ toLowerCase c.address ++ "/")] := by
  have hk : i ≤ artifacts.length := by
    rcases Nat.lt_or_ge i artifacts.length with h | h
    · exact Nat.le_of_lt h
    · rw [List.getElem?_eq_none h] at ha
      cases ha
  obtain ⟨addrs, hl, htr⟩ := firstIterations_trace w artifacts args uri network i hk hpre
  have hrun : deployNFTContract w artifact args[i]? (uri ++ network)
        (firstIterations w artifacts args uri network i).2 =
      (.error e, (firstIterations w artifacts args uri network i).2 ++
        [Event.getContractFactory artifact, Event.deploy artifact none xs,
          Event.deployed c.address,
          Event.log ("new " ++ artifact ++ " contract deployed to " ++ c.address),
          Event.updateBaseURI c.address (uri ++ network ++ toLowerCase c.address ++ "/")]) := by
    rw [hx, deployNFTContract_some]
    simp only [hf, hd, primaryBlock, List.take, hc, hu]
  have hab := deployAll_abort w artifacts args uri network i artifact e ha hpre (by rw [hrun])
  rw [hrun] at hab
  rw [hab]
  refine ⟨rfl, rfl, ?_, ?_, addrs, hl, by rw [htr]⟩
  · rw [htr]
    simp only [List.mem_append, not_or]
    exact ⟨getSigners_not_mem_primaryBlocks _ _ _ _, by simp⟩
  · simp [List.getLast?_append]

/-- Witness for C10 as amended: two contracts, the `updateBaseURI` call on the first
one (the fifth call of the run) is rejected. -/
theorem updateBaseURI_failure_aborts_witness :
    (deployAll (World.failingAt 5 (World.succeeding [⟨"0xA1"⟩, ⟨"0xB2"⟩])) ["A", "B"]
      [["A", "SA"], ["B", "SB"]] "https://x/" "net/").result =
      .error (.rejected "updateBaseURI") ∧
    (deployAll (World.failingAt 5 (World.succeeding [⟨"0xA1"⟩, ⟨"0xB2"⟩])) ["A", "B"]
      [["A", "SA"], ["B", "SB"]] "https://x/" "net/").periphery = none ∧
    Event.getSigners ∉ (deployAll (World.failingAt 5 (World.succeeding [⟨"0xA1"⟩, ⟨"0xB2"⟩]))
      ["A", "B"] [["A", "SA"], ["B", "SB"]] "https://x/" "net/").trace ∧
    (deployAll (World.failingAt 5 (World.succeeding [⟨"0xA1"⟩, ⟨"0xB2"⟩])) ["A", "B"]
      [["A", "SA"], ["B", "SB"]] "https://x/" "net/").trace.getLast? =
      some (Event.updateBaseURI "0xCF" ("https://x/" ++ "net/" ++ toLowerCase "0xCF" ++ "/")) ∧
    ∃ addrs : List Address, addrs.length = 0 ∧
      (deployAll (World.failingAt 5 (World.succeeding [⟨"0xA1"⟩, ⟨"0xB2"⟩])) ["A", "B"]
        [["A", "SA"], ["B", "SB"]] "https://x/" "net/").trace =
        primaryBlocks ("https://x/" ++ "net/") (["A", "B"].take 0) [["A", "SA"], ["B", "SB"]]
          addrs ++
          [Event.getContractFactory "A", Event.deploy "A" none ["A", "SA"],
            Event.deployed "0xCF", Event.log ("new " ++ "A" ++ " contract deployed to " ++ "0xCF"),
            Event.updateBaseURI "0xCF"
              ("https://x/" ++ "net/" ++ toLowerCase "0xCF" ++ "/")] :=
  updateBaseURI_failure_aborts (World.failingAt 5 (World.succeeding [⟨"0xA1"⟩, ⟨"0xB2"⟩]))
    ["A", "B"] [["A", "SA"], ["B", "SB"]] "https://x/" "net/" 0 "A" ["A", "SA"] ⟨"0xCF"⟩
    (.rejected "updateBaseURI") rfl rfl rfl rfl rfl rfl rfl

/-- Counterexample to C10 as stated: on two contracts, rejecting the `updateBaseURI`
call on the first one ends the run at that call, with no settle delay, no
verification request, no second deployment and `deployPeriphery` not started, while
the run in which the call succeeds issues two settle delays and two verification
requests in the loop and starts `deployPeriphery`. -/
theorem updateBaseURI_failure_changes_run :
    (deployAll (World.failingAt 5 (World.succeeding [⟨"0xA1"⟩, ⟨"0xB2"⟩])) ["A", "B"]
      [["A", "SA"], ["B", "SB"]] "https://x/" "net/").trace =
      [Event.getContractFactory "A", Event.deploy "A" none ["A", "SA"], Event.deployed "0xCF",
        Event.log "new A contract deployed to 0xCF",
        Event.updateBaseURI "0xCF" "https://x/net/0xcf/"] ∧
    (deployAll (World.failingAt 5 (World.succeeding [⟨"0xA1"⟩, ⟨"0xB2"⟩])) ["A", "B"]
      [["A", "SA"], ["B", "SB"]] "https://x/" "net/").result =
      .error (.rejected "updateBaseURI") ∧
    (deployAll (World.failingAt 5 (World.succeeding [⟨"0xA1"⟩, ⟨"0xB2"⟩])) ["A", "B"]
      [["A", "SA"], ["B", "SB"]] "https://x/" "net/").periphery = none ∧
    (primaryEvents (deployAll (World.succeeding [⟨"0xA1"⟩, ⟨"0xB2"⟩]) ["A", "B"]
      [["A", "SA"], ["B", "SB"]] "https://x/" "net/").trace).drop 5 =
      [Event.setTimeout 10000, Event.verify "0xCF" (some ["A", "SA"]),
        Event.getContractFactory "B", Event.deploy "B" none ["B", "SB"], Event.deployed "0xCFF",
        Event.log "new B contract deployed to 0xCFF",
        Event.updateBaseURI "0xCFF" "https://x/net/0xcff/", Event.setTimeout 10000,
        Event.verify "0xCFF" (some ["B", "SB"])] ∧
    (deployAll (World.succeeding [⟨"0xA1"⟩, ⟨"0xB2"⟩]) ["A", "B"]
      [["A", "SA"], ["B", "SB"]] "https://x/" "net/").periphery = some (.ok ()) :=
  ⟨rfl, rfl, rfl, rfl, rfl⟩

end Deploy
